import Mathlib

/-!
# glomap: global positioning options, the mapper executable and track retriangulation

A shallow embedding of

* `src/glomap/estimators/global_positioning.h` (options and interface of the positioner),
* `src/glomap/exe/global_mapper.cc` (`UpdateDatabasePosePriorsCovariance`, `RunMapper`),
* `src/glomap/controllers/track_retriangulation.cc` (`RetriangulateTracks`).

Conventions.  Identifiers (`image_t`, `camera_t`, `track_t`) are natural numbers.  Scalars of
type `double` are IEEE 754 binary64 values (`Double` below), with multiplication, division and
comparison rounded to nearest, ties to even.  A `std::unordered_map` is a list of key/value
entries with
pairwise distinct keys, iterated in list order.  Collaborators that live outside these three
files (COLMAP, Ceres, the loaders and writers) are fields of an environment record, so every
statement holds for all behaviours of those collaborators.
-/

namespace glomap

/-! ## Identifiers and linear algebra values -/

abbrev camera_t := Nat
abbrev image_t := Nat
abbrev track_t := Nat

/-! ## The type `double` -/

/-- A value of the C++ type `double` (IEEE 754 binary64): not-a-number, an infinity, or the
finite value `(-1)^negative * mantissa * 2^exponent`. -/
inductive Double where
  | nan
  | inf (negative : Bool)
  | finite (negative : Bool) (mantissa : Nat) (exponent : Int)
deriving DecidableEq, Repr

namespace Double

/-- Number of binary digits of `m`, found in at most `fuel` halvings. -/
def bitLengthAux : Nat → Nat → Nat
  | 0, _ => 0
  | fuel + 1, m => if m = 0 then 0 else bitLengthAux fuel (m / 2) + 1

/-- Number of binary digits of a natural number. -/
def bitLength (m : Nat) : Nat := bitLengthAux m m

/-- The binary64 value `(-1)^negative * kept * 2^quantum` of an already rounded mantissa:
infinity from `2^1024` on. -/
def pack (negative : Bool) (kept : Nat) (quantum : Int) : Double :=
  if kept = 0 then finite negative 0 0
  else if 1024 < quantum + (bitLength kept : Int) then inf negative
  else finite negative kept quantum

/-- Rounding to nearest, ties to even, of the real `mantissa * 2^exponent` (plus a positive
amount below one unit of `mantissa` when `sticky`) to a binary64 value of the given sign:
53 significant bits, no unit below `2^-1074`, infinity from `2^1024` on. -/
def round (negative : Bool) (mantissa : Nat) (exponent : Int) (sticky : Bool) : Double :=
  if mantissa = 0 then finite negative 0 0
  else
    let quantum : Int := max (exponent + (bitLength mantissa : Int) - 53) (-1074)
    let shift : Nat := (quantum - exponent).toNat
    let kept : Nat :=
      if quantum ≤ exponent then mantissa * 2 ^ (exponent - quantum).toNat
      else
        let keep := mantissa / 2 ^ shift
        let rest := mantissa % 2 ^ shift
        let half := 2 ^ (shift - 1)
        if half < rest ∨ (rest = half ∧ (sticky ∨ keep % 2 = 1)) then keep + 1 else keep
    pack negative kept quantum

/-- Conversion of an unsigned integer, `static_cast<double>(n)`. -/
def ofNat (n : Nat) : Double := round false n 0 false

/-- Unary minus. -/
def neg : Double → Double
  | nan => nan
  | inf s => inf (!s)
  | finite s m e => finite (!s) m e

/-- The product `a * b`. -/
def mul : Double → Double → Double
  | nan, _ => nan
  | _, nan => nan
  | inf s, inf t => inf (xor s t)
  | inf s, finite t m _ => if m = 0 then nan else inf (xor s t)
  | finite s m _, inf t => if m = 0 then nan else inf (xor s t)
  | finite s m e, finite t n f => round (xor s t) (m * n) (e + f) false

/-- The quotient `a / b`. -/
def div : Double → Double → Double
  | nan, _ => nan
  | _, nan => nan
  | inf _, inf _ => nan
  | inf s, finite t _ _ => inf (xor s t)
  | finite s _ _, inf t => finite (xor s t) 0 0
  | finite s m e, finite t n f =>
    if n = 0 then (if m = 0 then nan else inf (xor s t))
    else
      let extra : Nat := bitLength n + 55 - bitLength m
      round (xor s t) (m * 2 ^ extra / n) (e - f - (extra : Int))
        (decide (m * 2 ^ extra % n ≠ 0))

/-- The integer `(-1)^negative * mantissa * 2^(exponent - low)`, for `low ≤ exponent`. -/
def scaled (negative : Bool) (mantissa : Nat) (exponent low : Int) : Int :=
  let magnitude : Int := (mantissa * 2 ^ (exponent - low).toNat : Nat)
  if negative then -magnitude else magnitude

/-- The comparison `a < b`, false when either side is not a number. -/
def lt : Double → Double → Bool
  | nan, _ => false
  | _, nan => false
  | inf s, inf t => s && !t
  | inf s, finite _ _ _ => s
  | finite _ _ _, inf t => !t
  | finite s m e, finite t n f =>
    decide (scaled s m e (min e f) < scaled t n f (min e f))

/-- The comparison `a <= b`, false when either side is not a number. -/
def le : Double → Double → Bool
  | nan, _ => false
  | _, nan => false
  | inf s, inf t => s || !t
  | inf s, finite _ _ _ => s
  | finite _ _ _, inf t => !t
  | finite s m e, finite t n f =>
    decide (scaled s m e (min e f) ≤ scaled t n f (min e f))

instance (n : Nat) : OfNat Double n := ⟨ofNat n⟩

instance : Neg Double := ⟨neg⟩

end Double

/-- Value of `Eigen::Vector3d`. -/
structure Vector3d where
  x : Double
  y : Double
  z : Double
deriving DecidableEq

/-- Value of `Eigen::Matrix3d`, stored by rows. -/
structure Matrix3d where
  row0 : Vector3d
  row1 : Vector3d
  row2 : Vector3d
deriving DecidableEq

/-- Coefficient of a vector by index. -/
def Vector3d.coeff (v : Vector3d) : Fin 3 → Double
  | 0 => v.x
  | 1 => v.y
  | 2 => v.z

/-- Coefficient `(i, j)` of a matrix. -/
def Matrix3d.coeff (m : Matrix3d) : Fin 3 → Fin 3 → Double
  | 0, j => m.row0.coeff j
  | 1, j => m.row1.coeff j
  | 2, j => m.row2.coeff j

/-- `Eigen::Vector3d::Constant(c)`. -/
def Vector3d.Constant (c : Double) : Vector3d := ⟨c, c, c⟩

/-- `v.cwiseAbs2()`: the squared absolute value of every coefficient, which Eigen computes
for a real scalar as the product of the coefficient with itself. -/
def Vector3d.cwiseAbs2 (v : Vector3d) : Vector3d :=
  ⟨v.x.mul v.x, v.y.mul v.y, v.z.mul v.z⟩

/-- `v.asDiagonal()` assigned to a `Matrix3d`. -/
def Vector3d.asDiagonal (v : Vector3d) : Matrix3d :=
  ⟨⟨v.x, 0, 0⟩, ⟨0, v.y, 0⟩, ⟨0, 0, v.z⟩⟩

/-! ## `std::unordered_map` -/

/-- A `std::unordered_map<Nat, V>`: entries in iteration order, keys pairwise distinct. -/
structure UMap (V : Type) where
  entries : List (Nat × V)
  nodup : (entries.map Prod.fst).Nodup

namespace UMap

variable {V : Type}

/-- The empty map. -/
def empty : UMap V := ⟨[], List.nodup_nil⟩

/-- Keys in iteration order. -/
def keys (m : UMap V) : List Nat := m.entries.map Prod.fst

/-- Lookup of a key (`find`). -/
def find (m : UMap V) (k : Nat) : Option V := m.entries.lookup k

/-- `m.count(k)`. -/
def count (m : UMap V) (k : Nat) : Nat := if (m.find k).isSome then 1 else 0

/-- Replace the value stored under `k`, or append an entry when `k` is absent. -/
def setEntry (k : Nat) (v : V) : List (Nat × V) → List (Nat × V)
  | [] => [(k, v)]
  | (k', v') :: rest => if k' = k then (k, v) :: rest else (k', v') :: setEntry k v rest

/-- `m[k] = v`: assign to the entry of `k`, inserting it when absent. -/
def set (m : UMap V) (k : Nat) (v : V) : UMap V :=
  ⟨setEntry k v m.entries, by
    have hkeys : ∀ l : List (Nat × V), (setEntry k v l).map Prod.fst =
        if k ∈ l.map Prod.fst then l.map Prod.fst else l.map Prod.fst ++ [k] := by
      intro l
      induction l with
      | nil => simp [setEntry]
      | cons e rest ih =>
        obtain ⟨k', v'⟩ := e
        by_cases hk : k' = k
        · simp [setEntry, hk]
        · have hk' : ¬ k = k' := fun h => hk h.symm
          simp only [setEntry, if_neg hk, List.map_cons, ih, List.mem_cons, hk', false_or]
          split_ifs <;> simp
    rw [hkeys]
    split_ifs with hmem
    · exact m.nodup
    · exact List.Nodup.append m.nodup (List.nodup_singleton k) (by simpa using hmem)⟩

/-- `m[k]` read as a value: the stored value, or the default-constructed one that
`operator[]` inserts when `k` is absent. -/
def getD (m : UMap V) (k : Nat) (dflt : V) : V := (m.find k).getD dflt

/-- A range-for over `auto&` entries that assigns `f key value` to each value. -/
def mapValues (f : Nat → V → V) (m : UMap V) : UMap V :=
  ⟨m.entries.map (fun e => (e.1, f e.1 e.2)), by
    have hkeys : (m.entries.map (fun e => (e.1, f e.1 e.2))).map Prod.fst =
        m.entries.map Prod.fst := by
      rw [List.map_map]
      rfl
    rw [hkeys]
    exact m.nodup⟩

end UMap

/-! ## Scene model -/

/-- Modelled from the spec: the `Camera` entity (`glomap/scene/types_sfm.h` is not among the
sources): intrinsic calibration parameters, and whether the camera counts as calibrated. -/
structure Camera where
  params : List Double
  calibrated : Bool
deriving DecidableEq

/-- Value of `colmap::PosePrior`. -/
structure PosePrior where
  position : Vector3d
  position_covariance : Matrix3d
  coordinate_system : Int
deriving DecidableEq

/-- Modelled from the spec: the `Image` entity (`glomap/scene/types_sfm.h` is not among the
sources): a camera reference, a fixed orientation, the position, the registration flag and an
optional pose prior. -/
structure Image where
  camera_id : camera_t
  orientation : Vector3d
  position : Vector3d
  is_registered : Bool
  pose_prior : Option PosePrior
deriving DecidableEq

/-- A default-constructed `Image` (what `operator[]` inserts for an absent key). -/
def Image.default : Image :=
  { camera_id := 0, orientation := ⟨0, 0, 0⟩, position := ⟨0, 0, 0⟩, is_registered := false,
    pose_prior := none }

/-- Modelled from the spec: the `Track` entity: a 3D point and its observations, each an image
id with an observation direction. -/
structure Track where
  point : Vector3d
  observations : List (image_t × Vector3d)
deriving DecidableEq

/-- Modelled from the spec: a view-graph edge: a pair of image ids with the relative translation
direction and the quality indicator. -/
structure ImagePair where
  image_id1 : image_t
  image_id2 : image_t
  translation : Vector3d
  is_valid : Bool
deriving DecidableEq

/-- Modelled from the spec: the view graph, of which the sources use `image_pairs`. -/
structure ViewGraph where
  image_pairs : List ImagePair
deriving DecidableEq

abbrev Cameras := UMap Camera
abbrev Images := UMap Image
abbrev Tracks := UMap Track

/-! ## `GlobalPositionerOptions` (global_positioning.h) -/

/-- `GlobalPositionerOptions::ConstraintType`. -/
inductive ConstraintType where
  | ONLY_POINTS
  | ONLY_CAMERAS
  | POINTS_AND_CAMERAS_BALANCED
  | POINTS_AND_CAMERAS
deriving DecidableEq, Repr

/-- Underlying integer of an enumerator (unscoped enum without initialisers: 0, 1, 2, 3). -/
def ConstraintType.toNat : ConstraintType → Nat
  | .ONLY_POINTS => 0
  | .ONLY_CAMERAS => 1
  | .POINTS_AND_CAMERAS_BALANCED => 2
  | .POINTS_AND_CAMERAS => 3

/-- `GlobalPositionerOptions`, with the member initialisers of the header as defaults.
`thres_loss_function` is the member inherited from `OptimizationBaseOptions` that the
constructor sets to `1e-1`, the quotient `1 / 10` rounded to a `double`. -/
structure GlobalPositionerOptions where
  thres_loss_function : Double := Double.div 1 10
  generate_random_positions : Bool := true
  generate_random_points : Bool := true
  generate_scales : Bool := true
  optimize_positions : Bool := true
  optimize_points : Bool := true
  optimize_scales : Bool := true
  use_gpu : Bool := true
  gpu_index : String := "-1"
  min_num_images_gpu_solver : Int := 50
  min_num_view_per_track : Int := 3
  seed : Nat := 1
  cameras_bbox : Vector3d × Vector3d := (Vector3d.Constant (-100), Vector3d.Constant 100)
  points_bbox : Vector3d × Vector3d := (Vector3d.Constant (-100), Vector3d.Constant 100)
  constraint_type : ConstraintType := ConstraintType.ONLY_POINTS
  constraint_reweight_scale : Double := 1
deriving DecidableEq

/-! ## `GlobalPositioner` (global_positioning.h) -/

/-- The data members of a `GlobalPositioner` that its public interface exposes. -/
structure GlobalPositioner where
  options_ : GlobalPositionerOptions
deriving DecidableEq

/-- Modelled from the spec: the constructor `GlobalPositioner(const GlobalPositionerOptions&)`,
whose body is in `global_positioning.cc`, not among the sources: the configuration is passed
in as a value and stored in the member `options_`. -/
def GlobalPositioner.new (options : GlobalPositionerOptions) : GlobalPositioner :=
  { options_ := options }

/-- Modelled from the spec: a camera-to-point term: the track, the observing image, the
observation direction, and whether the calibrated loss wraps it. -/
structure PointResidual where
  track_id : track_t
  image_id : image_t
  direction : Vector3d
  calibrated : Bool
deriving DecidableEq

/-- Modelled from the spec: the optimisation problem handed to the solver (section 4): the
camera-centre and point variables with their starting values, the two families of residual
terms, which classes of variables are held constant, and the linear-solver strategy. -/
structure Problem where
  camera_centers : List (image_t × Vector3d)
  points : List (track_t × Vector3d)
  camera_to_camera : List ImagePair
  camera_to_point : List PointResidual
  constant_positions : Bool
  constant_points : Bool
  constant_scales : Bool
  gpu : Bool
deriving DecidableEq

/-- Modelled from the spec: the two collaborators of the positioner (section 6): the seeded
random-number capability (seed, bounding box, index of the draw) and the nonlinear
least-squares solver, which returns the solved camera centres and points, or `none` on a hard
failure. -/
structure PositionerEnv where
  random : Nat → Vector3d × Vector3d → Nat → Vector3d
  solve : Problem → Option (List (image_t × Vector3d) × List (track_t × Vector3d))

/-- Modelled from the spec: whether image `image_id` is in the map with its registration flag
set (section 3). -/
def IsRegistered (images : Images) (image_id : image_t) : Bool :=
  ((images.find image_id).map (fun image => image.is_registered)).getD false

/-- Modelled from the spec: the usable view-graph edges (section 3): "Only edges between two
registered images with sufficiently reliable translation estimates are used." -/
def UsableEdges (view_graph : ViewGraph) (images : Images) : List ImagePair :=
  view_graph.image_pairs.filter (fun pair =>
    pair.is_valid && IsRegistered images pair.image_id1 && IsRegistered images pair.image_id2)

/-- Modelled from the spec: the camera-to-camera terms (section 4.1): one per usable edge,
"skipped entirely if the constraint policy excludes camera-camera terms". -/
def CameraToCameraConstraints (options : GlobalPositionerOptions) (view_graph : ViewGraph)
    (images : Images) : List ImagePair :=
  if options.constraint_type = ConstraintType.ONLY_POINTS then []
  else UsableEdges view_graph images

/-- Modelled from the spec: whether the camera owning an image is calibrated, which selects
one of the two robust losses of a camera-to-point term (section 4.1). -/
def OwnerCalibrated (cameras : Cameras) (images : Images) (image_id : image_t) : Bool :=
  match images.find image_id with
  | some image => ((cameras.find image.camera_id).map (fun camera => camera.calibrated)).getD false
  | none => false

/-- Modelled from the spec: the camera-to-point terms (section 4.1): one per observation of
every track with at least `min_num_view_per_track` views, "skipped if the policy excludes
point terms". -/
def PointToCameraConstraints (options : GlobalPositionerOptions) (cameras : Cameras)
    (images : Images) (tracks : Tracks) : List PointResidual :=
  if options.constraint_type = ConstraintType.ONLY_CAMERAS then []
  else
    (tracks.entries.filter (fun entry =>
        decide (options.min_num_view_per_track ≤ (entry.2.observations.length : Int)))).flatMap
      (fun entry => entry.2.observations.map (fun observation =>
        { track_id := entry.1, image_id := observation.1, direction := observation.2,
          calibrated := OwnerCalibrated cameras images observation.1 }))

/-- Modelled from the spec: the starting values (section 4.1, random initialization): drawn
from the bounding box with the seeded generator when enabled, the existing values otherwise.
`offset` is the number of draws made before. -/
def InitialValues (env : PositionerEnv) (randomize : Bool) (seed : Nat)
    (bbox : Vector3d × Vector3d) (offset : Nat) (existing : List (Nat × Vector3d)) :
    List (Nat × Vector3d) :=
  existing.enum.map (fun item =>
    (item.2.1, if randomize then env.random seed bbox (offset + item.1) else item.2.2))

/-- Modelled from the spec: the problem built by the constraint builder and the
parameterization stage (sections 4.1 and 4.2), with the strategy chosen by the solve driver
(section 4.3). -/
def SetupProblem (env : PositionerEnv) (options : GlobalPositionerOptions)
    (view_graph : ViewGraph) (cameras : Cameras) (images : Images) (tracks : Tracks) :
    Problem :=
  { camera_centers :=
      InitialValues env options.generate_random_positions options.seed options.cameras_bbox 0
        (images.entries.map (fun entry => (entry.1, entry.2.position))),
    points :=
      InitialValues env options.generate_random_points options.seed options.points_bbox
        images.entries.length (tracks.entries.map (fun entry => (entry.1, entry.2.point))),
    camera_to_camera := CameraToCameraConstraints options view_graph images,
    camera_to_point := PointToCameraConstraints options cameras images tracks,
    constant_positions := !options.optimize_positions,
    constant_points := !options.optimize_points,
    constant_scales := !options.optimize_scales,
    gpu := options.use_gpu &&
      decide (options.min_num_images_gpu_solver ≤
        ((images.entries.filter (fun entry => entry.2.is_registered)).length : Int)) }

/-- Modelled from the spec: the result converter (section 4.4): every solved camera centre and
every solved point is written back to its image or track. -/
def ConvertResults (solved : List (image_t × Vector3d) × List (track_t × Vector3d))
    (images : Images) (tracks : Tracks) : Images × Tracks :=
  (images.mapValues (fun image_id image =>
      match solved.1.lookup image_id with
      | some center => { image with position := center }
      | none => image),
    tracks.mapValues (fun track_id track =>
      match solved.2.lookup track_id with
      | some point => { track with point := point }
      | none => track))

/-- What a call of `GlobalPositioner::Solve` leaves behind: the returned flag and the two maps
it may write. -/
structure SolveResult where
  ret : Bool
  images : Images
  tracks : Tracks

/-- Modelled from the spec: `GlobalPositioner::Solve`, declared at lines 71-77 of the header
and defined in `global_positioning.cc`, not among the sources.  Sections 4.3 and 7: an empty
constraint set "is detected by the Solve Driver, which reports failure rather than invoking the
solver on an empty problem"; a hard solver failure is a failed solve that leaves the scene
model unmodified; every other termination is converted and returned as success. -/
def GlobalPositioner.Solve (env : PositionerEnv) (self : GlobalPositioner)
    (view_graph : ViewGraph) (cameras : Cameras) (images : Images) (tracks : Tracks) :
    SolveResult :=
  let problem := SetupProblem env self.options_ view_graph cameras images tracks
  if problem.camera_to_camera.isEmpty && problem.camera_to_point.isEmpty then
    { ret := false, images := images, tracks := tracks }
  else
    match env.solve problem with
    | none => { ret := false, images := images, tracks := tracks }
    | some solved =>
      let converted := ConvertResults solved images tracks
      { ret := true, images := converted.1, tracks := converted.2 }

/-- The part of a `colmap::Database` that the executable reads and writes: the image rows
(by id), the pose-prior table keyed by image id, and the matched image pairs. -/
structure Database where
  images : List image_t
  pose_priors : image_t → Option PosePrior
  image_pairs : List (image_t × image_t)

/-- `database.ReadAllImages()`, as the ids of the rows. -/
def Database.ReadAllImages (database : Database) : List image_t := database.images

/-- `database.ExistsPosePrior(image_id)`. -/
def Database.ExistsPosePrior (database : Database) (image_id : image_t) : Bool :=
  (database.pose_priors image_id).isSome

/-- `database.ReadPosePrior(image_id)`. -/
def Database.ReadPosePrior (database : Database) (image_id : image_t) : Option PosePrior :=
  database.pose_priors image_id

/-- `database.UpdatePosePrior(image_id, prior)`: rewrites the row of `image_id`, if any. -/
def Database.UpdatePosePrior (database : Database) (image_id : image_t) (prior : PosePrior) :
    Database :=
  { database with
    pose_priors := fun id =>
      if id = image_id then (database.pose_priors id).map (fun _ => prior)
      else database.pose_priors id }

/-- One iteration of the loop of `UpdateDatabasePosePriorsCovariance`. -/
def UpdatePosePriorCovarianceOfImage (covariance : Matrix3d) (database : Database)
    (image_id : image_t) : Database :=
  if database.ExistsPosePrior image_id then
    match database.ReadPosePrior image_id with
    | some prior =>
      database.UpdatePosePrior image_id { prior with position_covariance := covariance }
    | none => database
  else database

/-- `UpdateDatabasePosePriorsCovariance(database, covariance)`. -/
def UpdateDatabasePosePriorsCovariance (database : Database) (covariance : Matrix3d) :
    Database :=
  database.ReadAllImages.foldl (UpdatePosePriorCovarianceOfImage covariance) database

/-- The pose-prior options read by `RunMapper` (`options.mapper->opt_pose_prior`). -/
structure PosePriorOptions where
  overwrite_position_priors_covariance : Bool
  prior_position_std_x : Double
  prior_position_std_y : Double
  prior_position_std_z : Double
deriving DecidableEq

/-- The members of `GlobalMapperOptions` (`*options.mapper`) that `RunMapper` touches. -/
structure GlobalMapperOptions where
  opt_gp : GlobalPositionerOptions
  opt_pose_prior : PosePriorOptions
deriving DecidableEq

/-- The local option variables of `RunMapper` after `options.Parse`; the field defaults are
the initialisers of the locals, kept when the command line does not name the option. -/
structure MapperArgs where
  database_path : String
  output_path : String
  image_path : String := ""
  constraint_type : String := "ONLY_POINTS"
  output_format : String := "bin"
deriving DecidableEq

/-- What `ConvertDatabaseToGlomap` fills in. -/
structure LoadedScene where
  view_graph : ViewGraph
  cameras : Cameras
  images : Images

/-- The four maps handed to the solver and to the writer. -/
structure Scene where
  view_graph : ViewGraph
  cameras : Cameras
  images : Images
  tracks : Tracks

/-- Collaborators of `RunMapper`. -/
structure MapperEnv where
  /-- `colmap::ExistsFile`. -/
  ExistsFile : String → Bool
  /-- Contents of the database opened by `colmap::Database database(database_path)`. -/
  OpenDatabase : String → Database
  /-- `ConvertDatabaseToGlomap(database, view_graph, cameras, images, flag)`. -/
  ConvertDatabaseToGlomap : Database → Bool → LoadedScene
  /-- `GlobalMapper(options).Solve(database, view_graph, cameras, images, tracks)`: the
  returned flag and the maps as it leaves them. -/
  Solve : GlobalMapperOptions → Database → Scene → Bool × Scene

/-- Observable actions of `RunMapper` on its collaborators, in program order. -/
inductive MapperEffect where
  /-- A call of `global_mapper.Solve`, with the flag it returned. -/
  | Solve (returned : Bool)
  /-- A call of `WriteGlomapReconstruction(output_path, ..., output_format, image_path)`. -/
  | WriteGlomapReconstruction (output_path output_format image_path : String)
deriving DecidableEq

def EXIT_SUCCESS : Int := 0
def EXIT_FAILURE : Int := 1

/-- State left behind by a run of `RunMapper`. -/
structure MapperResult where
  exit_code : Int
  /-- `*options.mapper` at return. -/
  options : GlobalMapperOptions
  /-- The database at return; `none` when it was never opened. -/
  database : Option Database
  effects : List MapperEffect
  /-- The maps passed to the writer; `none` when nothing was written. -/
  written : Option Scene

/-- Lines 60-75: the policy named by `constraint_type` is stored in
`options.mapper->opt_gp.constraint_type`; `none` is the `else` branch (`return EXIT_FAILURE`). -/
def SetConstraintType (options : GlobalMapperOptions) (constraint_type : String) :
    Option GlobalMapperOptions :=
  if constraint_type = "ONLY_POINTS" then
    some { options with opt_gp.constraint_type := ConstraintType.ONLY_POINTS }
  else if constraint_type = "ONLY_CAMERAS" then
    some { options with opt_gp.constraint_type := ConstraintType.ONLY_CAMERAS }
  else if constraint_type = "POINTS_AND_CAMERAS_BALANCED" then
    some { options with opt_gp.constraint_type := ConstraintType.POINTS_AND_CAMERAS_BALANCED }
  else if constraint_type = "POINTS_AND_CAMERAS" then
    some { options with opt_gp.constraint_type := ConstraintType.POINTS_AND_CAMERAS }
  else
    none

/-- Lines 94-99: the covariance built from the three configured standard deviations. -/
def PriorCovariance (opt : PosePriorOptions) : Matrix3d :=
  (Vector3d.mk opt.prior_position_std_x opt.prior_position_std_y
    opt.prior_position_std_z).cwiseAbs2.asDiagonal

/-- Lines 93-106: the optional overwrite of the pose-prior covariances in the database. -/
def OverwritePosePriorsCovariance (options : GlobalMapperOptions) (database : Database) :
    Database :=
  if options.opt_pose_prior.overwrite_position_priors_covariance then
    UpdateDatabasePosePriorsCovariance database (PriorCovariance options.opt_pose_prior)
  else database

/-- The names accepted for `constraint_type` (lines 60-71). -/
def ConstraintTypeNames : List String :=
  ["ONLY_POINTS", "ONLY_CAMERAS", "POINTS_AND_CAMERAS_BALANCED", "POINTS_AND_CAMERAS"]

/-- The scene that lines 89-122 load: the database at `database_path` after the optional
covariance overwrite, converted by `ConvertDatabaseToGlomap`. -/
def LoadDatabase (env : MapperEnv) (options : GlobalMapperOptions) (args : MapperArgs) :
    LoadedScene :=
  env.ConvertDatabaseToGlomap
    (OverwritePosePriorsCovariance options (env.OpenDatabase args.database_path)) true

/-- `RunMapper`, from the point where `options.Parse(argc, argv)` has returned: `options` is
`*options.mapper` and `args` holds the parsed local variables. -/
def RunMapper (env : MapperEnv) (options : GlobalMapperOptions) (args : MapperArgs) :
    MapperResult :=
  if !env.ExistsFile args.database_path then
    { exit_code := EXIT_FAILURE, options := options, database := none, effects := [],
      written := none }
  else
    match SetConstraintType options args.constraint_type with
    | none =>
      { exit_code := EXIT_FAILURE, options := options, database := none, effects := [],
        written := none }
    | some options =>
      if args.output_format ≠ "bin" ∧ args.output_format ≠ "txt" then
        { exit_code := EXIT_FAILURE, options := options, database := none, effects := [],
          written := none }
      else
        let database := env.OpenDatabase args.database_path
        let database := OverwritePosePriorsCovariance options database
        let loaded := env.ConvertDatabaseToGlomap database true
        if loaded.view_graph.image_pairs.isEmpty then
          { exit_code := EXIT_FAILURE, options := options, database := some database,
            effects := [], written := none }
        else
          let scene : Scene :=
            { view_graph := loaded.view_graph, cameras := loaded.cameras,
              images := loaded.images, tracks := UMap.empty }
          let solved := env.Solve options database scene
          { exit_code := EXIT_SUCCESS, options := options, database := some database,
            effects := [MapperEffect.Solve solved.1,
              MapperEffect.WriteGlomapReconstruction args.output_path args.output_format
                args.image_path],
            written := some solved.2 }

/-! ## Track retriangulation (controllers/track_retriangulation.cc) -/

/-- `ceres::TerminationType`. -/
inductive TerminationType where
  | CONVERGENCE
  | NO_CONVERGENCE
  | FAILURE
  | USER_SUCCESS
  | USER_FAILURE
deriving DecidableEq, Repr

/-- The COLMAP side of `RetriangulateTracks`.  `R` is the joint state of the
`colmap::Reconstruction`, the incremental mapper and the observation manager working on it;
each field is one call of the source, with the triangulation and bundle-adjustment options it
is given already applied. -/
structure ColmapEnv (R : Type) where
  /-- `database_cache->ExistsImage(image_id)`. -/
  ExistsImage : image_t → Bool
  /-- `ConvertGlomapToColmap(cameras, images, tracks, reconstruction)`. -/
  ConvertGlomapToColmap : Cameras → Images → Tracks → R
  /-- `DeleteAllPoints2DAndPoints3D`, `TranscribeImageIdsToDatabase`, `BeginReconstruction`. -/
  BeginReconstruction : R → R
  /-- `reconstruction_ptr->RegImageIds()`, in increasing order. -/
  RegImageIds : R → List image_t
  /-- `mapper.TriangulateImage(tri_options, image_id)`. -/
  TriangulateImage : image_t → R → R
  /-- `mapper.CompleteAndMergeTracks(tri_options)`, with the count it returns. -/
  CompleteAndMergeTracks : R → Nat × R
  /-- `observation_manager.FilterObservationsWithNegativeDepth()`. -/
  FilterObservationsWithNegativeDepth : R → R
  /-- `reconstruction_ptr->ComputeNumObservations()`. -/
  ComputeNumObservations : R → Nat
  /-- `CreateDefaultBundleAdjuster(...)->Solve()`, with the termination type of its summary. -/
  BundleAdjust : R → TerminationType × R
  /-- `mapper.FilterPoints(mapper_options)`, with the count it returns. -/
  FilterPoints : R → Nat × R
  /-- `ConvertGlomapToColmapImage(image, image_colmap, true)` followed by `AddImage`. -/
  AddImage : Image → R → R
  /-- `ConvertColmapToGlomap(reconstruction, cameras, images, tracks)`: the three maps as the
  call leaves them. -/
  ConvertColmapToGlomap : R → Cameras → Images → Tracks → Cameras × Images × Tracks
  /-- `options_colmap.ba_global_max_refinements` (an `int`). -/
  ba_global_max_refinements : Int
  /-- `options_colmap.ba_global_max_refinement_change`. -/
  ba_global_max_refinement_change : Double

/-- Calls made by `RetriangulateTracks` from line 77 on, in program order. -/
inductive TriEvent where
  /-- `bundle_adjuster->Solve()`, run on `num_observations` observations. -/
  | BundleAdjust (num_observations : Nat) (termination : TerminationType)
  /-- `mapper.CompleteAndMergeTracks`, with the returned count. -/
  | CompleteAndMergeTracks (changed : Nat)
  /-- `mapper.FilterPoints`, with the returned count. -/
  | FilterPoints (changed : Nat)
  /-- `ConvertColmapToGlomap`. -/
  | ConvertColmapToGlomap
deriving DecidableEq, Repr

/-- Whether an event is a bundle-adjustment solve. -/
def TriEvent.isBundleAdjust : TriEvent → Bool
  | .BundleAdjust _ _ => true
  | _ => false

/-- Lines 30-36 over the entries of the map: the entries after the loop and the ids pushed
onto `image_ids_notconnected`. -/
def UnregisterPass (ExistsImage : image_t → Bool) :
    List (image_t × Image) → List (image_t × Image) × List image_t
  | [] => ([], [])
  | (image_id, image) :: rest =>
    let done := UnregisterPass ExistsImage rest
    if !ExistsImage image_id && image.is_registered then
      ((image_id, { image with is_registered := false }) :: done.1, image_id :: done.2)
    else
      ((image_id, image) :: done.1, done.2)

/-- Lines 27-36: the images map after the loop, and `image_ids_notconnected`. -/
def UnregisterNotConnected (ExistsImage : image_t → Bool) (images : Images) :
    Images × List image_t :=
  (⟨(UnregisterPass ExistsImage images.entries).1, by
      have hkeys : ∀ l : List (image_t × Image),
          (UnregisterPass ExistsImage l).1.map Prod.fst = l.map Prod.fst := by
        intro l
        induction l with
        | nil => rfl
        | cons e rest ih =>
          obtain ⟨image_id, image⟩ := e
          simp only [UnregisterPass]
          split_ifs <;> simp [ih]
      rw [hkeys]
      exact images.nodup⟩,
    (UnregisterPass ExistsImage images.entries).2)

/-- Lines 93-117, with `remaining` iterations still allowed.  The first component is `none`
when line 106 returns `false` and the reconstruction after the loop otherwise; the second lists
the calls made. -/
def RefineLoop {R : Type} (env : ColmapEnv R) : Nat → R → Option R × List TriEvent
  | 0, reconstruction => (some reconstruction, [])
  | remaining + 1, reconstruction =>
    let reconstruction := env.FilterObservationsWithNegativeDepth reconstruction
    let num_observations := env.ComputeNumObservations reconstruction
    let solved := env.BundleAdjust reconstruction
    if solved.1 = TerminationType.FAILURE then
      (none, [TriEvent.BundleAdjust num_observations solved.1])
    else
      let completed := env.CompleteAndMergeTracks solved.2
      let filtered := env.FilterPoints completed.2
      let num_changed_observations := (completed.1 + filtered.1) % 2 ^ 64
      let changed :=
        Double.div (Double.ofNat num_changed_observations) (Double.ofNat num_observations)
      let events :=
        [TriEvent.BundleAdjust num_observations solved.1,
          TriEvent.CompleteAndMergeTracks completed.1, TriEvent.FilterPoints filtered.1]
      if Double.lt changed env.ba_global_max_refinement_change then
        (some filtered.2, events)
      else
        let rest := RefineLoop env remaining filtered.2
        (rest.1, events ++ rest.2)

/-- Lines 121-126: every id of `image_ids_notconnected` is registered again in the images map
and its image is added to the reconstruction. -/
def ReRegister {R : Type} (env : ColmapEnv R) (image_ids_notconnected : List image_t)
    (images : Images) (reconstruction : R) : Images × R :=
  image_ids_notconnected.foldl
    (fun (state : Images × R) (image_id : image_t) =>
      let images :=
        state.1.set image_id
          { state.1.getD image_id Image.default with is_registered := true }
      (images, env.AddImage (images.getD image_id Image.default) state.2))
    (images, reconstruction)

/-- Lines 129-134: the stash of the pose priors present in the images map. -/
def StashPosePriors (images : Images) : UMap PosePrior :=
  images.entries.foldl
    (fun (pose_priors : UMap PosePrior) (entry : image_t × Image) =>
      match entry.2.pose_prior with
      | some prior => pose_priors.set entry.1 prior
      | none => pose_priors)
    UMap.empty

/-- Lines 140-144: every image with a stashed pose prior gets it back. -/
def RestorePosePriors (pose_priors : UMap PosePrior) (images : Images) : Images :=
  images.mapValues (fun image_id image =>
    if pose_priors.count image_id ≠ 0 then
      { image with pose_prior := pose_priors.find image_id }
    else image)

/-- Lines 38-77: the conversion to a COLMAP reconstruction (with no tracks), the triangulation
of every registered image, and the first completion and merging of tracks, with the count it
returns. -/
def TriangulateAll {R : Type} (env : ColmapEnv R) (cameras : Cameras) (images : Images) :
    Nat × R :=
  let reconstruction := env.ConvertGlomapToColmap cameras images UMap.empty
  let reconstruction := env.BeginReconstruction reconstruction
  let reg_image_ids := env.RegImageIds reconstruction
  let reconstruction :=
    reg_image_ids.foldl (fun r image_id => env.TriangulateImage image_id r) reconstruction
  env.CompleteAndMergeTracks reconstruction

/-- What a call of `RetriangulateTracks` leaves behind. -/
structure RetriangulateResult where
  /-- The returned flag. -/
  ret : Bool
  cameras : Cameras
  images : Images
  tracks : Tracks
  /-- The calls made from line 77 on. -/
  events : List TriEvent
  /-- The images map handed to `ConvertGlomapToColmap` at line 41. -/
  colmap_input : Images
  /-- The images map as `ConvertColmapToGlomap` left it at line 137, if it was called. -/
  converted : Option Images

/-- `RetriangulateTracks(options, database, cameras, images, tracks)`. -/
def RetriangulateTracks {R : Type} (env : ColmapEnv R) (cameras : Cameras) (images : Images)
    (tracks : Tracks) : RetriangulateResult :=
  let unregistered := UnregisterNotConnected env.ExistsImage images
  let images1 := unregistered.1
  let image_ids_notconnected := unregistered.2
  let completed := TriangulateAll env cameras images1
  let refined := RefineLoop env env.ba_global_max_refinements.toNat completed.2
  match refined.1 with
  | none =>
    { ret := false, cameras := cameras, images := images1, tracks := tracks,
      events := TriEvent.CompleteAndMergeTracks completed.1 :: refined.2,
      colmap_input := images1, converted := none }
  | some reconstruction =>
    let registered := ReRegister env image_ids_notconnected images1 reconstruction
    let pose_priors := StashPosePriors registered.1
    let converted := env.ConvertColmapToGlomap registered.2 cameras registered.1 tracks
    { ret := true, cameras := converted.1,
      images := RestorePosePriors pose_priors converted.2.1, tracks := converted.2.2,
      events := TriEvent.CompleteAndMergeTracks completed.1 ::
        (refined.2 ++ [TriEvent.ConvertColmapToGlomap]),
      colmap_input := images1, converted := some converted.2.1 }

/-- A COLMAP side for concrete runs: image 1 is the only image of the database cache, every
solve ends with `outcome`, the first iteration changes 5 of 100 observations and the later ones
2 of 100, and the conversion back moves every image and drops its pose prior. -/
def sampleColmapEnv (outcome : TerminationType) : ColmapEnv Nat where
  ExistsImage := fun image_id => decide (image_id = 1)
  ConvertGlomapToColmap := fun _ _ _ => 0
  BeginReconstruction := fun r => r
  RegImageIds := fun _ => [1]
  TriangulateImage := fun _ r => r
  CompleteAndMergeTracks := fun r => (2, r)
  FilterObservationsWithNegativeDepth := fun r => r
  ComputeNumObservations := fun _ => 100
  BundleAdjust := fun r => (outcome, r + 1)
  FilterPoints := fun r => (if r < 2 then 3 else 0, r)
  AddImage := fun _ r => r
  ConvertColmapToGlomap := fun _ cameras images tracks =>
    (cameras,
      images.mapValues (fun _ image => { image with position := ⟨1, 1, 1⟩, pose_prior := none }),
      tracks)
  ba_global_max_refinements := 5
  ba_global_max_refinement_change := Double.div 3 100

/-- A COLMAP side at the boundary of the stopping test: every iteration changes 1 of 2000
observations and the threshold is `0.0005`, the `double` that the quotient rounds to. -/
def boundaryColmapEnv : ColmapEnv Nat where
  ExistsImage := fun _ => true
  ConvertGlomapToColmap := fun _ _ _ => 0
  BeginReconstruction := fun r => r
  RegImageIds := fun _ => [1, 2]
  TriangulateImage := fun _ r => r
  CompleteAndMergeTracks := fun r => (1, r)
  FilterObservationsWithNegativeDepth := fun r => r
  ComputeNumObservations := fun _ => 2000
  BundleAdjust := fun r => (TerminationType.CONVERGENCE, r + 1)
  FilterPoints := fun r => (0, r)
  AddImage := fun _ r => r
  ConvertColmapToGlomap := fun _ cameras images tracks => (cameras, images, tracks)
  ba_global_max_refinements := 5
  ba_global_max_refinement_change := Double.div 5 10000

/-- A registered image with a pose prior. -/
def sampleImageWithPrior : Image :=
  { camera_id := 1, orientation := ⟨0, 0, 0⟩, position := ⟨0, 0, 0⟩, is_registered := true,
    pose_prior := some ⟨⟨1, 2, 3⟩, ⟨⟨1, 0, 0⟩, ⟨0, 1, 0⟩, ⟨0, 0, 1⟩⟩, 1⟩ }

/-- A registered image without a pose prior. -/
def sampleImageNoPrior : Image :=
  { camera_id := 1, orientation := ⟨0, 0, 0⟩, position := ⟨5, 0, 0⟩, is_registered := true,
    pose_prior := none }

/-- Two registered images: image 1 carries a pose prior, image 2 does not. -/
def sampleImages : Images :=
  ⟨[(1, sampleImageWithPrior), (2, sampleImageNoPrior)], by decide⟩

/-- A view graph whose only edge joins image 1 to image 3, which is not in `sampleImages`. -/
def sampleViewGraph : ViewGraph :=
  ⟨[⟨1, 3, ⟨0, 0, 1⟩, true⟩]⟩

/-- A positioner configured for the cameras-only policy. -/
def sampleCamerasOnlyPositioner : GlobalPositioner :=
  GlobalPositioner.new { constraint_type := ConstraintType.ONLY_CAMERAS }

/-- Collaborators of the positioner for concrete runs: every draw is the lower corner of the
box, and the solver moves every camera centre to the origin. -/
def samplePositionerEnv : PositionerEnv where
  random := fun _ bbox _ => bbox.1
  solve := fun problem =>
    some (problem.camera_centers.map (fun entry => (entry.1, ⟨0, 0, 0⟩)), problem.points)

/-- An environment with a database file at `db` holding two matched images, one with a prior. -/
def sampleMapperEnv : MapperEnv where
  ExistsFile := fun path => path = "db"
  OpenDatabase := fun _ =>
    { images := [1, 2],
      pose_priors := fun id =>
        if id = 1 then some ⟨⟨1, 2, 3⟩, ⟨⟨1, 0, 0⟩, ⟨0, 1, 0⟩, ⟨0, 0, 1⟩⟩, 1⟩ else none,
      image_pairs := [(1, 2)] }
  ConvertDatabaseToGlomap := fun database _ =>
    { view_graph := ⟨database.image_pairs.map (fun p => ⟨p.1, p.2, ⟨0, 0, 1⟩, true⟩)⟩,
      cameras := UMap.empty, images := UMap.empty }
  Solve := fun _ _ scene => (false, scene)

/-- Options as the option manager holds them when nothing was configured. -/
def sampleMapperOptions : GlobalMapperOptions :=
  { opt_gp := {},
    opt_pose_prior :=
      { overwrite_position_priors_covariance := true, prior_position_std_x := -2,
        prior_position_std_y := 3, prior_position_std_z := Double.div 1 2 } }

/-- Options whose first standard deviation is not a number. -/
def sampleNanOptions : GlobalMapperOptions :=
  { opt_gp := {},
    opt_pose_prior :=
      { overwrite_position_priors_covariance := true, prior_position_std_x := Double.nan,
        prior_position_std_y := 3, prior_position_std_z := 1 } }

end glomap

/-! # Theorems -/

namespace glomap

/-! ## RunMapper: constraint policy selection -/

theorem SetConstraintType_opt_pose_prior {options options1 : GlobalMapperOptions}
    {constraint_type : String} (h : SetConstraintType options constraint_type = some options1) :
    options1.opt_pose_prior = options.opt_pose_prior := by
  unfold SetConstraintType at h
  split_ifs at h <;> simp at h <;> subst h <;> rfl

theorem SetConstraintType_eq_none_iff (options : GlobalMapperOptions) (constraint_type : String) :
    SetConstraintType options constraint_type = none ↔
      constraint_type ∉ ConstraintTypeNames := by
  unfold SetConstraintType ConstraintTypeNames
  split_ifs <;> simp [*]

theorem OverwritePosePriorsCovariance_congr {options options1 : GlobalMapperOptions}
    (h : options1.opt_pose_prior = options.opt_pose_prior) (database : Database) :
    OverwritePosePriorsCovariance options1 database =
      OverwritePosePriorsCovariance options database := by
  unfold OverwritePosePriorsCovariance
  rw [h]

/-- C2: in `RunMapper`, once `database_path` names an existing file, each of the four policy
names stores the enumerator of the same name in `options.mapper->opt_gp.constraint_type`; the
four enumerators have pairwise distinct values, so two names that select the same policy are the
same name; for every other string (for instance another case, surrounding blanks or the empty
string) no policy is stored, nothing is solved or written, and `RunMapper` returns
`EXIT_FAILURE`. -/
theorem RunMapper_constraint_type_by_name :
    (∀ (env : MapperEnv) (options : GlobalMapperOptions) (args : MapperArgs),
      env.ExistsFile args.database_path = true →
        (args.constraint_type = "ONLY_POINTS" →
          (RunMapper env options args).options.opt_gp.constraint_type
            = ConstraintType.ONLY_POINTS) ∧
        (args.constraint_type = "ONLY_CAMERAS" →
          (RunMapper env options args).options.opt_gp.constraint_type
            = ConstraintType.ONLY_CAMERAS) ∧
        (args.constraint_type = "POINTS_AND_CAMERAS_BALANCED" →
          (RunMapper env options args).options.opt_gp.constraint_type
            = ConstraintType.POINTS_AND_CAMERAS_BALANCED) ∧
        (args.constraint_type = "POINTS_AND_CAMERAS" →
          (RunMapper env options args).options.opt_gp.constraint_type
            = ConstraintType.POINTS_AND_CAMERAS)) ∧
    Function.Injective ConstraintType.toNat ∧
    (∀ (options options1 options2 : GlobalMapperOptions) (s t : String),
      SetConstraintType options s = some options1 →
      SetConstraintType options t = some options2 →
      options1.opt_gp.constraint_type = options2.opt_gp.constraint_type → s = t) ∧
    (∀ (env : MapperEnv) (options : GlobalMapperOptions) (args : MapperArgs),
      args.constraint_type ∉ ConstraintTypeNames →
        (RunMapper env options args).exit_code = EXIT_FAILURE ∧
        (RunMapper env options args).options = options ∧
        (RunMapper env options args).effects = [] ∧
        (RunMapper env options args).written = none) ∧
    "only_points" ∉ ConstraintTypeNames ∧ " ONLY_POINTS" ∉ ConstraintTypeNames ∧
    "ONLY_POINTS " ∉ ConstraintTypeNames ∧ "" ∉ ConstraintTypeNames := by
  refine ⟨?_, ?_, ?_, ?_, by decide, by decide, by decide, by decide⟩
  · intro env options args hdb
    refine ⟨?_, ?_, ?_, ?_⟩ <;> intro hct <;>
      simp only [RunMapper, hdb, hct, SetConstraintType] <;>
      simp <;> split_ifs <;> rfl
  · intro a b h
    cases a <;> cases b <;> first | rfl | (exact absurd h (by decide))
  · intro options options1 options2 s t hs ht hc
    unfold SetConstraintType at hs ht
    split_ifs at hs ht <;> simp at hs ht <;> subst hs <;> subst ht <;> simp_all
  · intro env options args hct
    have hnone := (SetConstraintType_eq_none_iff options args.constraint_type).2 hct
    unfold RunMapper
    split_ifs <;> simp [hnone]

/-- C2, at a concrete run: with the database file present, `ONLY_CAMERAS` selects the
cameras-only policy. -/
theorem RunMapper_constraint_type_by_name_witness :
    (RunMapper sampleMapperEnv sampleMapperOptions
        { database_path := "db", output_path := "out",
          constraint_type := "ONLY_CAMERAS" }).options.opt_gp.constraint_type
      = ConstraintType.ONLY_CAMERAS :=
  (RunMapper_constraint_type_by_name.1 sampleMapperEnv sampleMapperOptions
    { database_path := "db", output_path := "out", constraint_type := "ONLY_CAMERAS" }
    (by decide)).2.1 rfl

/-! ## RunMapper: default policy -/

/-- C3: the default policy is points-only at both levels: a default-constructed
`GlobalPositionerOptions` has `constraint_type == ONLY_POINTS`; the default string of the
`constraint_type` option is the name of that policy; a run of `RunMapper` without a
`constraint_type` argument that gets past the database check stores `ONLY_POINTS`, whatever the
options held before; and when the options started from the default-constructed positioner
options, `constraint_type` is `ONLY_POINTS` at every return of such a run. -/
theorem RunMapper_default_constraint_type :
    ({} : GlobalPositionerOptions).constraint_type = ConstraintType.ONLY_POINTS ∧
    (∀ (database_path output_path image_path output_format : String),
      ({ database_path := database_path, output_path := output_path, image_path := image_path,
         output_format := output_format } : MapperArgs).constraint_type = "ONLY_POINTS") ∧
    (∀ (env : MapperEnv) (options : GlobalMapperOptions)
        (database_path output_path image_path output_format : String),
      env.ExistsFile database_path = true →
        (RunMapper env options
          { database_path := database_path, output_path := output_path,
            image_path := image_path,
            output_format := output_format }).options.opt_gp.constraint_type
          = ConstraintType.ONLY_POINTS) ∧
    (∀ (env : MapperEnv) (opt_pose_prior : PosePriorOptions)
        (database_path output_path image_path output_format : String),
        (RunMapper env { opt_gp := {}, opt_pose_prior := opt_pose_prior }
          { database_path := database_path, output_path := output_path,
            image_path := image_path,
            output_format := output_format }).options.opt_gp.constraint_type
          = ConstraintType.ONLY_POINTS) := by
  refine ⟨rfl, fun _ _ _ _ => rfl, ?_, ?_⟩
  · intro env options database_path output_path image_path output_format hdb
    simp only [RunMapper, hdb, SetConstraintType]
    simp
    split_ifs <;> rfl
  · intro env opt_pose_prior database_path output_path image_path output_format
    simp only [RunMapper, SetConstraintType]
    simp
    split_ifs <;> rfl

/-- C3, at a concrete run that names no `constraint_type`. -/
theorem RunMapper_default_constraint_type_witness :
    (RunMapper sampleMapperEnv
        { sampleMapperOptions with opt_gp.constraint_type := ConstraintType.POINTS_AND_CAMERAS }
        { database_path := "db", output_path := "out", image_path := "",
          output_format := "bin" }).options.opt_gp.constraint_type
      = ConstraintType.ONLY_POINTS :=
  RunMapper_default_constraint_type.2.2.1 sampleMapperEnv
    { sampleMapperOptions with opt_gp.constraint_type := ConstraintType.POINTS_AND_CAMERAS }
    "db" "out" "" "bin" (by decide)

/-! ## RunMapper: exit status -/

theorem RunMapper_of_loaded (env : MapperEnv) (options options1 : GlobalMapperOptions)
    (args : MapperArgs) (hdb : env.ExistsFile args.database_path = true)
    (hct : SetConstraintType options args.constraint_type = some options1)
    (hfmt : ¬ (args.output_format ≠ "bin" ∧ args.output_format ≠ "txt")) :
    RunMapper env options args =
      if (LoadDatabase env options args).view_graph.image_pairs.isEmpty then
        { exit_code := EXIT_FAILURE, options := options1,
          database := some (OverwritePosePriorsCovariance options
            (env.OpenDatabase args.database_path)),
          effects := [], written := none }
      else
        { exit_code := EXIT_SUCCESS, options := options1,
          database := some (OverwritePosePriorsCovariance options
            (env.OpenDatabase args.database_path)),
          effects := [MapperEffect.Solve (env.Solve options1
              (OverwritePosePriorsCovariance options (env.OpenDatabase args.database_path))
              { view_graph := (LoadDatabase env options args).view_graph,
                cameras := (LoadDatabase env options args).cameras,
                images := (LoadDatabase env options args).images, tracks := UMap.empty }).1,
            MapperEffect.WriteGlomapReconstruction args.output_path args.output_format
              args.image_path],
          written := some (env.Solve options1
              (OverwritePosePriorsCovariance options (env.OpenDatabase args.database_path))
              { view_graph := (LoadDatabase env options args).view_graph,
                cameras := (LoadDatabase env options args).cameras,
                images := (LoadDatabase env options args).images, tracks := UMap.empty }).2 } := by
  have hpp := OverwritePosePriorsCovariance_congr (SetConstraintType_opt_pose_prior hct)
    (env.OpenDatabase args.database_path)
  unfold RunMapper LoadDatabase
  simp only [hdb, hct, hpp]
  simp only [Bool.not_true, Bool.false_eq_true, if_false, if_neg hfmt]

/-- C5: `RunMapper` returns `EXIT_FAILURE` exactly when `database_path` is not an existing
file, or `constraint_type` is not one of the four policy names, or `output_format` is neither
`bin` nor `txt`, or the view graph loaded from the database has no image pairs; a failing run
performs neither the solve nor the write; every other run performs one solve followed by one
write of the reconstruction and returns `EXIT_SUCCESS`, and the exit code does not depend on
what `GlobalMapper::Solve` does or returns. -/
theorem RunMapper_exit_status (env : MapperEnv) (options : GlobalMapperOptions)
    (args : MapperArgs) :
    ((RunMapper env options args).exit_code = EXIT_FAILURE ↔
      (env.ExistsFile args.database_path = false ∨
        args.constraint_type ∉ ConstraintTypeNames ∨
        (args.output_format ≠ "bin" ∧ args.output_format ≠ "txt") ∨
        (LoadDatabase env options args).view_graph.image_pairs = [])) ∧
    ((RunMapper env options args).exit_code = EXIT_FAILURE →
      (RunMapper env options args).effects = [] ∧
      (RunMapper env options args).written = none) ∧
    ((RunMapper env options args).exit_code ≠ EXIT_FAILURE →
      (RunMapper env options args).exit_code = EXIT_SUCCESS ∧
      ∃ returned : Bool, (RunMapper env options args).effects =
        [MapperEffect.Solve returned,
          MapperEffect.WriteGlomapReconstruction args.output_path args.output_format
            args.image_path]) ∧
    (∀ solve : GlobalMapperOptions → Database → Scene → Bool × Scene,
      (RunMapper { env with Solve := solve } options args).exit_code =
        (RunMapper env options args).exit_code) := by
  by_cases hdb : env.ExistsFile args.database_path = true
  swap
  · have hdb0 : env.ExistsFile args.database_path = false := by simpa using hdb
    have hrun : ∀ e : MapperEnv, e.ExistsFile = env.ExistsFile →
        RunMapper e options args =
          { exit_code := EXIT_FAILURE, options := options, database := none, effects := [],
            written := none } := by
      intro e he
      simp [RunMapper, he, hdb0]
    rw [hrun env rfl]
    refine ⟨⟨fun _ => Or.inl hdb0, fun _ => rfl⟩, fun _ => ⟨rfl, rfl⟩,
      fun h => absurd rfl h, fun solve => ?_⟩
    exact congrArg MapperResult.exit_code (hrun { env with Solve := solve } rfl)
  cases hct : SetConstraintType options args.constraint_type with
  | none =>
    have hnames := (SetConstraintType_eq_none_iff options args.constraint_type).1 hct
    have hrun : ∀ e : MapperEnv, e.ExistsFile = env.ExistsFile →
        RunMapper e options args =
          { exit_code := EXIT_FAILURE, options := options, database := none, effects := [],
            written := none } := by
      intro e he
      simp [RunMapper, he, hdb, hct]
    rw [hrun env rfl]
    refine ⟨⟨fun _ => Or.inr (Or.inl hnames), fun _ => rfl⟩, fun _ => ⟨rfl, rfl⟩,
      fun h => absurd rfl h, fun solve => ?_⟩
    exact congrArg MapperResult.exit_code (hrun { env with Solve := solve } rfl)
  | some options1 =>
    have hnames : ¬ args.constraint_type ∉ ConstraintTypeNames := by
      rw [← SetConstraintType_eq_none_iff options, hct]
      simp
    by_cases hfmt : args.output_format ≠ "bin" ∧ args.output_format ≠ "txt"
    · have hrun : ∀ e : MapperEnv, e.ExistsFile = env.ExistsFile →
          RunMapper e options args =
            { exit_code := EXIT_FAILURE, options := options1, database := none, effects := [],
              written := none } := by
        intro e he
        simp only [RunMapper, he, hdb, hct]
        simp only [Bool.not_true, Bool.false_eq_true, if_false, if_pos hfmt]
      rw [hrun env rfl]
      refine ⟨⟨fun _ => Or.inr (Or.inr (Or.inl hfmt)), fun _ => rfl⟩, fun _ => ⟨rfl, rfl⟩,
        fun h => absurd rfl h, fun solve => ?_⟩
      exact congrArg MapperResult.exit_code (hrun { env with Solve := solve } rfl)
    · have hsolve : ∀ solve : GlobalMapperOptions → Database → Scene → Bool × Scene,
          (RunMapper { env with Solve := solve } options args).exit_code =
            if (LoadDatabase env options args).view_graph.image_pairs.isEmpty then EXIT_FAILURE
            else EXIT_SUCCESS := by
        intro solve
        rw [RunMapper_of_loaded { env with Solve := solve } options options1 args hdb hct hfmt]
        show (if (LoadDatabase env options args).view_graph.image_pairs.isEmpty then _
          else _ : MapperResult).exit_code = _
        split_ifs <;> rfl
      have hself := hsolve env.Solve
      refine ⟨?_, ?_, ?_, fun solve => by rw [hsolve solve]; exact hself.symm⟩
      · rw [hself]
        by_cases he : (LoadDatabase env options args).view_graph.image_pairs.isEmpty = true
        · simp only [he, if_true, true_iff]
          exact Or.inr (Or.inr (Or.inr (List.isEmpty_iff.1 he)))
        · simp only [he, Bool.false_eq_true, if_false]
          constructor
          · intro h
            exact absurd h (by decide)
          · rintro (h | h | h | h)
            · rw [hdb] at h
              exact absurd h (by decide)
            · exact absurd h hnames
            · exact absurd h hfmt
            · exact absurd (List.isEmpty_iff.2 h) he
      · rw [RunMapper_of_loaded env options options1 args hdb hct hfmt]
        split_ifs
        · intro _
          exact ⟨rfl, rfl⟩
        · intro h
          exact absurd h (by decide : ¬ EXIT_SUCCESS = EXIT_FAILURE)
      · rw [RunMapper_of_loaded env options options1 args hdb hct hfmt]
        split_ifs
        · intro h
          exact absurd rfl h
        · intro _
          exact ⟨rfl, _, rfl⟩

/-! ## RunMapper: pose-prior covariance overwrite -/

theorem UpdatePosePriorCovarianceOfImage_pose_priors (covariance : Matrix3d)
    (database : Database) (image_id id : image_t) :
    (UpdatePosePriorCovarianceOfImage covariance database image_id).pose_priors id =
      if id = image_id then
        (database.pose_priors id).map (fun prior =>
          { prior with position_covariance := covariance })
      else database.pose_priors id := by
  unfold UpdatePosePriorCovarianceOfImage Database.ExistsPosePrior Database.ReadPosePrior
    Database.UpdatePosePrior
  by_cases hid : id = image_id
  · subst hid
    cases h : database.pose_priors id <;> simp [h]
  · cases h : database.pose_priors image_id <;> simp [h, hid]

theorem UpdatePosePriorCovarianceOfImage_images (covariance : Matrix3d)
    (database : Database) (image_id : image_t) :
    (UpdatePosePriorCovarianceOfImage covariance database image_id).images = database.images ∧
    (UpdatePosePriorCovarianceOfImage covariance database image_id).image_pairs =
      database.image_pairs := by
  unfold UpdatePosePriorCovarianceOfImage Database.UpdatePosePrior
  split_ifs
  · split <;> exact ⟨rfl, rfl⟩
  · exact ⟨rfl, rfl⟩

theorem foldl_UpdatePosePriorCovarianceOfImage (covariance : Matrix3d) (ids : List image_t) :
    ∀ (database : Database) (id : image_t),
      (ids.foldl (UpdatePosePriorCovarianceOfImage covariance) database).pose_priors id =
        (if id ∈ ids then
          (database.pose_priors id).map (fun prior =>
            { prior with position_covariance := covariance })
        else database.pose_priors id) ∧
      (ids.foldl (UpdatePosePriorCovarianceOfImage covariance) database).images =
        database.images ∧
      (ids.foldl (UpdatePosePriorCovarianceOfImage covariance) database).image_pairs =
        database.image_pairs := by
  induction ids with
  | nil => intro database id; simp
  | cons a rest ih =>
    intro database id
    rw [List.foldl_cons]
    obtain ⟨h1, h2, h3⟩ := ih (UpdatePosePriorCovarianceOfImage covariance database a) id
    have himg := UpdatePosePriorCovarianceOfImage_images covariance database a
    refine ⟨?_, h2.trans himg.1, h3.trans himg.2⟩
    rw [h1, UpdatePosePriorCovarianceOfImage_pose_priors]
    by_cases ha : id = a
    · subst ha
      cases h : database.pose_priors id <;> simp [h]
    · by_cases hr : id ∈ rest <;> simp [ha, hr]

theorem Double.pack_cases (negative : Bool) (kept : Nat) (quantum : Int) :
    Double.pack negative kept quantum = Double.finite negative 0 0 ∨
    Double.pack negative kept quantum = Double.inf negative ∨
    ∃ k q, k ≠ 0 ∧ Double.pack negative kept quantum = Double.finite negative k q := by
  unfold Double.pack
  split_ifs with h1 h2
  · exact Or.inl rfl
  · exact Or.inr (Or.inl rfl)
  · exact Or.inr (Or.inr ⟨_, _, h1, rfl⟩)

theorem Double.round_cases (negative : Bool) (mantissa : Nat) (exponent : Int)
    (sticky : Bool) :
    Double.round negative mantissa exponent sticky = Double.finite negative 0 0 ∨
    Double.round negative mantissa exponent sticky = Double.inf negative ∨
    ∃ kept quantum, kept ≠ 0 ∧
      Double.round negative mantissa exponent sticky = Double.finite negative kept quantum := by
  unfold Double.round
  by_cases h : mantissa = 0
  · rw [if_pos h]
    exact Or.inl rfl
  · rw [if_neg h]
    exact Double.pack_cases _ _ _

theorem Double.zero_eq : (0 : Double) = Double.finite false 0 0 := rfl

theorem Double.le_zero_round (mantissa : Nat) (exponent : Int) (sticky : Bool) :
    Double.le 0 (Double.round false mantissa exponent sticky) = true := by
  rw [Double.zero_eq]
  rcases Double.round_cases false mantissa exponent sticky with h | h | ⟨kept, quantum, _, h⟩
  · rw [h]
    simp [Double.le]
  · rw [h]
    rfl
  · rw [h]
    simp only [Double.le, Double.scaled, decide_eq_true_eq]
    simp only [Bool.false_eq_true, if_false, Nat.zero_mul, Nat.cast_zero]
    exact Int.ofNat_nonneg _

/-- The square of a `double` that is a number is not negative. -/
theorem Double.le_zero_mul_self (d : Double) (hd : d ≠ Double.nan) :
    Double.le 0 (d.mul d) = true := by
  cases d with
  | nan => exact absurd rfl hd
  | inf s => cases s <;> rfl
  | finite s m e =>
    have hsign : xor s s = false := by cases s <;> rfl
    simp only [Double.mul, hsign]
    exact Double.le_zero_round _ _ _

theorem Double.lt_irrefl (d : Double) : Double.lt d d = false := by
  cases d with
  | nan => rfl
  | inf s => cases s <;> rfl
  | finite s m e => simp [Double.lt]

theorem Double.lt_nan_left (d : Double) : Double.lt Double.nan d = false := by
  cases d <;> rfl

theorem Double.lt_inf_left (d : Double) : Double.lt (Double.inf false) d = false := by
  cases d <;> rfl

/-- With no observations the quotient of line 113 is infinite or not a number, which is below
no threshold. -/
theorem Double.lt_div_zero (n : Nat) (threshold : Double) :
    Double.lt (Double.div (Double.ofNat n) (Double.ofNat 0)) threshold = false := by
  have hzero : Double.ofNat 0 = Double.finite false 0 0 := rfl
  rw [hzero]
  unfold Double.ofNat
  rcases Double.round_cases false n 0 false with h | h | ⟨kept, quantum, hkept, h⟩
  · rw [h]
    simp only [Double.div, if_true]
    exact Double.lt_nan_left threshold
  · rw [h]
    simp only [Double.div, Bool.xor_false]
    exact Double.lt_inf_left threshold
  · rw [h]
    simp only [Double.div, if_true, if_neg hkept, Bool.xor_false]
    exact Double.lt_inf_left threshold

/-- C6 fails as stated: with `prior_position_std_x` not a number, the covariance that
`RunMapper` writes for image 1 has a first diagonal coefficient that is not a number, which is
not non-negative; and the `double` square of `0.1` is not the `double` `0.01`. -/
theorem RunMapper_pose_prior_covariance_not_a_number :
    (∃ database : Database,
      (RunMapper sampleMapperEnv sampleNanOptions
        { database_path := "db", output_path := "out" }).database = some database ∧
      (database.pose_priors 1).map (fun prior => prior.position_covariance.coeff 0 0) =
        some Double.nan) ∧
    (PriorCovariance sampleNanOptions.opt_pose_prior).coeff 0 0 = Double.nan ∧
    Double.le 0 ((PriorCovariance sampleNanOptions.opt_pose_prior).coeff 0 0) = false ∧
    Double.mul (Double.div 1 10) (Double.div 1 10) ≠ Double.div 1 100 := by
  refine ⟨⟨_, rfl, ?_⟩, ?_, ?_, ?_⟩
  · decide
  · decide
  · decide
  · set_option maxRecDepth 100000 in decide

/-- C6, amended: the covariance that `RunMapper` builds from `std_x, std_y, std_z` is the
diagonal matrix of the `double` products `std_x * std_x`, `std_y * std_y`, `std_z * std_z`,
with zero off-diagonal coefficients; a diagonal coefficient is non-negative whenever its
standard deviation (of any sign) is a number, and is not a number otherwise;
`UpdateDatabasePosePriorsCovariance` gives every database image that had a pose prior the same
prior with `position_covariance` replaced by the given matrix, leaves every id without a prior
without one, and leaves the image rows alone; and the database that a run of `RunMapper` leaves
behind is the opened one updated in this way when `overwrite_position_priors_covariance` is
set, and the opened one itself when it is not. -/
theorem RunMapper_pose_prior_covariance :
    (∀ opt : PosePriorOptions,
      PriorCovariance opt =
        ⟨⟨opt.prior_position_std_x.mul opt.prior_position_std_x, 0, 0⟩,
          ⟨0, opt.prior_position_std_y.mul opt.prior_position_std_y, 0⟩,
          ⟨0, 0, opt.prior_position_std_z.mul opt.prior_position_std_z⟩⟩ ∧
      (∀ i j : Fin 3, i ≠ j → (PriorCovariance opt).coeff i j = 0) ∧
      (∀ i : Fin 3,
        (Vector3d.mk opt.prior_position_std_x opt.prior_position_std_y
          opt.prior_position_std_z).coeff i ≠ Double.nan →
        Double.le 0 ((PriorCovariance opt).coeff i i) = true) ∧
      (∀ i : Fin 3,
        (Vector3d.mk opt.prior_position_std_x opt.prior_position_std_y
          opt.prior_position_std_z).coeff i = Double.nan →
        (PriorCovariance opt).coeff i i = Double.nan)) ∧
    (∀ (database : Database) (covariance : Matrix3d),
      (∀ (image_id : image_t) (prior : PosePrior),
        image_id ∈ database.ReadAllImages → database.pose_priors image_id = some prior →
          (UpdateDatabasePosePriorsCovariance database covariance).pose_priors image_id =
            some { prior with position_covariance := covariance }) ∧
      (∀ image_id : image_t, database.pose_priors image_id = none →
        (UpdateDatabasePosePriorsCovariance database covariance).pose_priors image_id = none) ∧
      (UpdateDatabasePosePriorsCovariance database covariance).ReadAllImages =
        database.ReadAllImages) ∧
    (∀ (env : MapperEnv) (options : GlobalMapperOptions) (args : MapperArgs)
        (database : Database),
      (RunMapper env options args).database = some database →
        (options.opt_pose_prior.overwrite_position_priors_covariance = true →
          database = UpdateDatabasePosePriorsCovariance (env.OpenDatabase args.database_path)
            (PriorCovariance options.opt_pose_prior)) ∧
        (options.opt_pose_prior.overwrite_position_priors_covariance = false →
          database = env.OpenDatabase args.database_path)) := by
  refine ⟨?_, ?_, ?_⟩
  · intro opt
    have hcov : PriorCovariance opt =
        ⟨⟨opt.prior_position_std_x.mul opt.prior_position_std_x, 0, 0⟩,
          ⟨0, opt.prior_position_std_y.mul opt.prior_position_std_y, 0⟩,
          ⟨0, 0, opt.prior_position_std_z.mul opt.prior_position_std_z⟩⟩ := rfl
    refine ⟨hcov, ?_, ?_, ?_⟩
    · intro i j hij
      rw [hcov]
      fin_cases i <;> fin_cases j <;> first | (exact absurd rfl hij) | rfl
    · intro i hi
      rw [hcov]
      fin_cases i <;> exact Double.le_zero_mul_self _ hi
    · intro i hi
      rw [hcov]
      fin_cases i <;>
        · simp only [Vector3d.coeff] at hi
          simp only [Matrix3d.coeff, Vector3d.coeff, hi]
          rfl
  · intro database covariance
    unfold UpdateDatabasePosePriorsCovariance Database.ReadAllImages
    refine ⟨?_, ?_, ?_⟩
    · intro image_id prior hmem hprior
      rw [(foldl_UpdatePosePriorCovarianceOfImage covariance database.images database
        image_id).1, if_pos hmem, hprior]
      rfl
    · intro image_id hnone
      rw [(foldl_UpdatePosePriorCovarianceOfImage covariance database.images database
        image_id).1, hnone]
      simp
    · exact (foldl_UpdatePosePriorCovarianceOfImage covariance database.images database 0).2.1
  · intro env options args database hrun
    by_cases hdb : env.ExistsFile args.database_path = true
    swap
    · simp [RunMapper, hdb] at hrun
    cases hct : SetConstraintType options args.constraint_type with
    | none => simp [RunMapper, hdb, hct] at hrun
    | some options1 =>
      by_cases hfmt : args.output_format ≠ "bin" ∧ args.output_format ≠ "txt"
      · simp only [RunMapper, hdb, hct] at hrun
        simp only [Bool.not_true, Bool.false_eq_true, if_false, if_pos hfmt] at hrun
        exact absurd hrun (by simp)
      · rw [RunMapper_of_loaded env options options1 args hdb hct hfmt] at hrun
        have hdatabase : database =
            OverwritePosePriorsCovariance options (env.OpenDatabase args.database_path) := by
          split_ifs at hrun <;> exact (Option.some.inj hrun).symm
        rw [hdatabase]
        unfold OverwritePosePriorsCovariance
        constructor
        · intro hflag
          rw [if_pos hflag]
        · intro hflag
          rw [hflag]
          rfl

/-- C6, amended, at a concrete run: standard deviations `-2, 3, 1/2` give non-negative
diagonal coefficients, and image 1, the one image with a pose prior, gets the covariance and
keeps its position and coordinate system. -/
theorem RunMapper_pose_prior_covariance_witness :
    Double.le 0 ((PriorCovariance sampleMapperOptions.opt_pose_prior).coeff 0 0) = true ∧
    (UpdateDatabasePosePriorsCovariance (sampleMapperEnv.OpenDatabase "db")
        (PriorCovariance sampleMapperOptions.opt_pose_prior)).pose_priors 1 =
      some ⟨⟨1, 2, 3⟩, PriorCovariance sampleMapperOptions.opt_pose_prior, 1⟩ :=
  ⟨(RunMapper_pose_prior_covariance.1 sampleMapperOptions.opt_pose_prior).2.2.1 0 (by decide),
    (RunMapper_pose_prior_covariance.2.1 (sampleMapperEnv.OpenDatabase "db")
      (PriorCovariance sampleMapperOptions.opt_pose_prior)).1 1
      ⟨⟨1, 2, 3⟩, ⟨⟨1, 0, 0⟩, ⟨0, 1, 0⟩, ⟨0, 0, 1⟩⟩, 1⟩
      (by simp [sampleMapperEnv, Database.ReadAllImages]) (by simp [sampleMapperEnv])⟩

/-! ## Lookup in maps -/

theorem lookup_cons_eq {V : Type} (k k' : Nat) (v : V) (l : List (Nat × V)) :
    List.lookup k ((k', v) :: l) = if k = k' then some v else List.lookup k l := by
  rw [List.lookup_cons]
  by_cases h : k = k'
  · simp [h]
  · have hb : (k == k') = false := by simpa using h
    simp [h, hb]

theorem lookup_eq_none_of_not_mem {V : Type} (k : Nat) :
    ∀ l : List (Nat × V), k ∉ l.map Prod.fst → List.lookup k l = none
  | [], _ => rfl
  | (k', v) :: rest, h => by
    have h1 : k ≠ k' := fun hk => h (by simp [hk])
    have h2 : k ∉ rest.map Prod.fst := fun hk => h (by simp at hk ⊢; exact Or.inr hk)
    rw [lookup_cons_eq, if_neg h1]
    exact lookup_eq_none_of_not_mem k rest h2

theorem lookup_eq_some_iff_mem {V : Type} (k : Nat) (v : V) :
    ∀ l : List (Nat × V), (l.map Prod.fst).Nodup → (List.lookup k l = some v ↔ (k, v) ∈ l)
  | [], _ => by simp
  | (k', v') :: rest, h => by
    have hnd : k' ∉ rest.map Prod.fst ∧ (rest.map Prod.fst).Nodup := by
      simpa using h
    rw [lookup_cons_eq]
    by_cases hk : k = k'
    · subst hk
      have hnot : (k, v) ∉ rest := fun hm => hnd.1 (List.mem_map_of_mem Prod.fst hm)
      simp only [if_true, List.mem_cons, Prod.mk.injEq, true_and, hnot, or_false]
      constructor
      · intro h1
        exact (Option.some.inj h1).symm
      · intro h1
        rw [h1]
    · rw [if_neg hk, lookup_eq_some_iff_mem k v rest hnd.2]
      simp [hk]

theorem lookup_map_values {V : Type} (f : Nat → V → V) (k : Nat) :
    ∀ l : List (Nat × V),
      List.lookup k (l.map (fun e => (e.1, f e.1 e.2))) = (List.lookup k l).map (f k)
  | [] => rfl
  | (k', v') :: rest => by
    rw [List.map_cons, lookup_cons_eq, lookup_cons_eq, lookup_map_values f k rest]
    by_cases hk : k = k'
    · subst hk
      simp
    · simp [hk]

theorem UMap.find_mapValues {V : Type} (f : Nat → V → V) (m : UMap V) (k : Nat) :
    (m.mapValues f).find k = (m.find k).map (f k) :=
  lookup_map_values f k m.entries

theorem UMap.find_set {V : Type} (m : UMap V) (k : Nat) (v : V) (id : Nat) :
    (m.set k v).find id = if id = k then some v else m.find id := by
  have h : ∀ l : List (Nat × V),
      List.lookup id (UMap.setEntry k v l) = if id = k then some v else List.lookup id l := by
    intro l
    induction l with
    | nil => simp [UMap.setEntry, lookup_cons_eq]
    | cons e rest ih =>
      obtain ⟨k', v'⟩ := e
      by_cases hk : k' = k
      · subst hk
        simp only [UMap.setEntry, if_true, lookup_cons_eq]
        split_ifs <;> rfl
      · simp only [UMap.setEntry, if_neg hk, lookup_cons_eq, ih]
        by_cases h1 : id = k
        · have h2 : ¬ id = k' := fun h => hk (h.symm.trans h1)
          simp [h1, h2, Ne.symm hk]
        · simp [h1]
  exact h m.entries

/-! ## RetriangulateTracks: the un-registration pass -/

theorem UnregisterPass_fst (ExistsImage : image_t → Bool) :
    ∀ l : List (image_t × Image),
      (UnregisterPass ExistsImage l).1 =
        l.map (fun e => (e.1,
          if (!ExistsImage e.1 && e.2.is_registered) = true then
            { e.2 with is_registered := false }
          else e.2))
  | [] => rfl
  | (image_id, image) :: rest => by
    simp only [UnregisterPass, List.map_cons]
    split_ifs with h <;> simp [UnregisterPass_fst ExistsImage rest]

theorem UnregisterPass_snd (ExistsImage : image_t → Bool) :
    ∀ l : List (image_t × Image),
      (UnregisterPass ExistsImage l).2 =
        (l.filter (fun e => !ExistsImage e.1 && e.2.is_registered)).map Prod.fst
  | [] => rfl
  | (image_id, image) :: rest => by
    simp only [UnregisterPass, List.filter_cons]
    split_ifs with h <;> simp [UnregisterPass_snd ExistsImage rest]

/-- C8: after the pass of lines 27-36, `image_ids_notconnected` holds, each once, exactly the
ids of the images that were registered at entry and are not in the database cache; those
images are as before except that `is_registered` is `false`; every other image is unchanged, no
image is added or removed; hence every image still marked registered exists in the database
cache, and this is the images map that `RetriangulateTracks` hands to COLMAP. -/
theorem RetriangulateTracks_unregister_pass (ExistsImage : image_t → Bool) (images : Images) :
    (UnregisterNotConnected ExistsImage images).2.Nodup ∧
    (∀ image_id : image_t, image_id ∈ (UnregisterNotConnected ExistsImage images).2 ↔
      ∃ image : Image, images.find image_id = some image ∧ image.is_registered = true ∧
        ExistsImage image_id = false) ∧
    (∀ (image_id : image_t) (image : Image),
      image_id ∈ (UnregisterNotConnected ExistsImage images).2 →
      images.find image_id = some image →
        (UnregisterNotConnected ExistsImage images).1.find image_id =
          some { image with is_registered := false }) ∧
    (∀ image_id : image_t, image_id ∉ (UnregisterNotConnected ExistsImage images).2 →
      (UnregisterNotConnected ExistsImage images).1.find image_id = images.find image_id) ∧
    (UnregisterNotConnected ExistsImage images).1.keys = images.keys ∧
    (∀ (image_id : image_t) (image : Image),
      (UnregisterNotConnected ExistsImage images).1.find image_id = some image →
      image.is_registered = true → ExistsImage image_id = true) ∧
    (∀ (R : Type) (env : ColmapEnv R) (cameras : Cameras) (tracks : Tracks),
      env.ExistsImage = ExistsImage →
        (RetriangulateTracks env cameras images tracks).colmap_input =
          (UnregisterNotConnected ExistsImage images).1) := by
  have hmem : ∀ image_id : image_t, image_id ∈ (UnregisterNotConnected ExistsImage images).2 ↔
      ∃ image : Image, images.find image_id = some image ∧ image.is_registered = true ∧
        ExistsImage image_id = false := by
    intro image_id
    show image_id ∈ (UnregisterPass ExistsImage images.entries).2 ↔ _
    rw [UnregisterPass_snd]
    simp only [List.mem_map, List.mem_filter, Bool.and_eq_true, Bool.not_eq_true']
    constructor
    · rintro ⟨⟨k, image⟩, ⟨hin, hex, hreg⟩, hk⟩
      simp only at hk hex hreg
      subst hk
      exact ⟨image, (lookup_eq_some_iff_mem k image images.entries images.nodup).2 hin,
        hreg, hex⟩
    · rintro ⟨image, hfind, hreg, hex⟩
      exact ⟨(image_id, image),
        ⟨(lookup_eq_some_iff_mem image_id image images.entries images.nodup).1 hfind, hex, hreg⟩,
        rfl⟩
  have hfind : ∀ image_id : image_t,
      (UnregisterNotConnected ExistsImage images).1.find image_id =
        (images.find image_id).map (fun image =>
          if (!ExistsImage image_id && image.is_registered) = true then
            { image with is_registered := false }
          else image) := by
    intro image_id
    show List.lookup image_id (UnregisterPass ExistsImage images.entries).1 = _
    rw [UnregisterPass_fst]
    exact lookup_map_values (fun k (image : Image) =>
      if (!ExistsImage k && image.is_registered) = true then
        { image with is_registered := false }
      else image) image_id images.entries
  refine ⟨?_, hmem, ?_, ?_, ?_, ?_, ?_⟩
  · show (UnregisterPass ExistsImage images.entries).2.Nodup
    rw [UnregisterPass_snd]
    exact List.Nodup.sublist (List.Sublist.map Prod.fst (List.filter_sublist _)) images.nodup
  · intro image_id image hin hentry
    obtain ⟨image1, h1, hreg, hex⟩ := (hmem image_id).1 hin
    rw [hentry] at h1
    cases h1
    rw [hfind, hentry]
    simp [hreg, hex]
  · intro image_id hnot
    rw [hfind]
    cases hentry : images.find image_id with
    | none => rfl
    | some image =>
      have hcond : ¬ (!ExistsImage image_id && image.is_registered) = true := by
        intro hc
        simp only [Bool.and_eq_true, Bool.not_eq_true'] at hc
        exact hnot ((hmem image_id).2 ⟨image, hentry, hc.2, hc.1⟩)
      rw [Option.map_some', if_neg hcond]
  · show (UnregisterPass ExistsImage images.entries).1.map Prod.fst = _
    rw [UnregisterPass_fst, List.map_map]
    rfl
  · intro image_id image hfound hreg
    rw [hfind] at hfound
    cases hentry : images.find image_id with
    | none => rw [hentry] at hfound; simp at hfound
    | some image0 =>
      rw [hentry] at hfound
      simp only [Option.map_some', Option.some.injEq] at hfound
      by_cases hcond : (!ExistsImage image_id && image0.is_registered) = true
      · rw [if_pos hcond] at hfound
        subst hfound
        simp at hreg
      · rw [if_neg hcond] at hfound
        subst hfound
        cases hex : ExistsImage image_id
        · exact absurd (by simp [hex, hreg]) hcond
        · rfl
  · intro R env cameras tracks henv
    subst henv
    unfold RetriangulateTracks
    simp only
    split <;> rfl

/-! ## RetriangulateTracks: the refinement loop -/

theorem RefineLoop_succ {R : Type} (env : ColmapEnv R) (remaining : Nat) (reconstruction : R) :
    RefineLoop env (remaining + 1) reconstruction =
      if (env.BundleAdjust (env.FilterObservationsWithNegativeDepth reconstruction)).1
          = TerminationType.FAILURE then
        (none, [TriEvent.BundleAdjust
          (env.ComputeNumObservations (env.FilterObservationsWithNegativeDepth reconstruction))
          (env.BundleAdjust (env.FilterObservationsWithNegativeDepth reconstruction)).1])
      else if Double.lt
          (Double.div
            (Double.ofNat (((env.CompleteAndMergeTracks
                (env.BundleAdjust (env.FilterObservationsWithNegativeDepth reconstruction)).2).1 +
              (env.FilterPoints (env.CompleteAndMergeTracks
                (env.BundleAdjust
                  (env.FilterObservationsWithNegativeDepth reconstruction)).2).2).1) % 2 ^ 64))
            (Double.ofNat (env.ComputeNumObservations
              (env.FilterObservationsWithNegativeDepth reconstruction))))
          env.ba_global_max_refinement_change = true then
        (some (env.FilterPoints (env.CompleteAndMergeTracks
            (env.BundleAdjust (env.FilterObservationsWithNegativeDepth reconstruction)).2).2).2,
          [TriEvent.BundleAdjust
            (env.ComputeNumObservations (env.FilterObservationsWithNegativeDepth reconstruction))
            (env.BundleAdjust (env.FilterObservationsWithNegativeDepth reconstruction)).1,
          TriEvent.CompleteAndMergeTracks (env.CompleteAndMergeTracks
            (env.BundleAdjust (env.FilterObservationsWithNegativeDepth reconstruction)).2).1,
          TriEvent.FilterPoints (env.FilterPoints (env.CompleteAndMergeTracks
            (env.BundleAdjust
              (env.FilterObservationsWithNegativeDepth reconstruction)).2).2).1])
      else
        ((RefineLoop env remaining (env.FilterPoints (env.CompleteAndMergeTracks
            (env.BundleAdjust
              (env.FilterObservationsWithNegativeDepth reconstruction)).2).2).2).1,
          [TriEvent.BundleAdjust
            (env.ComputeNumObservations (env.FilterObservationsWithNegativeDepth reconstruction))
            (env.BundleAdjust (env.FilterObservationsWithNegativeDepth reconstruction)).1,
          TriEvent.CompleteAndMergeTracks (env.CompleteAndMergeTracks
            (env.BundleAdjust (env.FilterObservationsWithNegativeDepth reconstruction)).2).1,
          TriEvent.FilterPoints (env.FilterPoints (env.CompleteAndMergeTracks
            (env.BundleAdjust
              (env.FilterObservationsWithNegativeDepth reconstruction)).2).2).1] ++
          (RefineLoop env remaining (env.FilterPoints (env.CompleteAndMergeTracks
            (env.BundleAdjust
              (env.FilterObservationsWithNegativeDepth reconstruction)).2).2).2).2) := by
  simp only [RefineLoop]

/-- The shapes a run of the loop can take: nothing, a failed solve, a last full iteration, or a
full iteration whose change is not below the threshold followed by a further run. -/
theorem RefineLoop_cases {R : Type} (env : ColmapEnv R) (remaining : Nat) (reconstruction : R) :
    (remaining = 0 ∧ RefineLoop env remaining reconstruction = (some reconstruction, [])) ∨
    (∃ k, 0 < remaining ∧
      RefineLoop env remaining reconstruction =
        (none, [TriEvent.BundleAdjust k TerminationType.FAILURE])) ∨
    (∃ k t c1 c2 r, 0 < remaining ∧ t ≠ TerminationType.FAILURE ∧
      Double.lt (Double.div (Double.ofNat ((c1 + c2) % 2 ^ 64)) (Double.ofNat k))
          env.ba_global_max_refinement_change = true ∧
      RefineLoop env remaining reconstruction =
        (some r, [TriEvent.BundleAdjust k t, TriEvent.CompleteAndMergeTracks c1,
          TriEvent.FilterPoints c2])) ∨
    (∃ k t c1 c2 r m, remaining = m + 1 ∧ t ≠ TerminationType.FAILURE ∧
      Double.lt (Double.div (Double.ofNat ((c1 + c2) % 2 ^ 64)) (Double.ofNat k))
          env.ba_global_max_refinement_change = false ∧
      RefineLoop env remaining reconstruction =
        ((RefineLoop env m r).1,
          TriEvent.BundleAdjust k t :: TriEvent.CompleteAndMergeTracks c1 ::
            TriEvent.FilterPoints c2 :: (RefineLoop env m r).2)) := by
  cases remaining with
  | zero => exact Or.inl ⟨rfl, rfl⟩
  | succ m =>
    rw [RefineLoop_succ]
    split_ifs with hfail hbelow
    · exact Or.inr (Or.inl ⟨_, Nat.succ_pos m, by rw [hfail]⟩)
    · exact Or.inr (Or.inr (Or.inl ⟨_, _, _, _, _, Nat.succ_pos m, hfail, hbelow, rfl⟩))
    · exact Or.inr (Or.inr (Or.inr ⟨_, _, _, _, _, m, rfl, hfail, by simpa using hbelow, rfl⟩))

theorem RefineLoop_count_le {R : Type} (env : ColmapEnv R) :
    ∀ (remaining : Nat) (reconstruction : R),
      (RefineLoop env remaining reconstruction).2.countP TriEvent.isBundleAdjust ≤ remaining := by
  intro remaining
  induction remaining with
  | zero => intro reconstruction; simp [RefineLoop]
  | succ m ih =>
    intro reconstruction
    rcases RefineLoop_cases env (m + 1) reconstruction with
      ⟨h0, _⟩ | ⟨k, _, h⟩ | ⟨k, t, c1, c2, r, _, _, _, h⟩ | ⟨k, t, c1, c2, r, m1, hm, _, _, h⟩
    · exact absurd h0 (Nat.succ_ne_zero m)
    · rw [h]
      simp [List.countP_cons, TriEvent.isBundleAdjust]
    · rw [h]
      simp [List.countP_cons, TriEvent.isBundleAdjust]
    · obtain rfl : m = m1 := Nat.succ.inj hm
      rw [h]
      have := ih r
      simp only [List.countP_cons, TriEvent.isBundleAdjust]
      simp only [Bool.false_eq_true, if_false, if_true, Nat.add_zero]
      omega

theorem RefineLoop_none_iff {R : Type} (env : ColmapEnv R) :
    ∀ (remaining : Nat) (reconstruction : R),
      (RefineLoop env remaining reconstruction).1 = none ↔
        ∃ k, TriEvent.BundleAdjust k TerminationType.FAILURE ∈
          (RefineLoop env remaining reconstruction).2 := by
  intro remaining
  induction remaining with
  | zero => intro reconstruction; simp [RefineLoop]
  | succ m ih =>
    intro reconstruction
    rcases RefineLoop_cases env (m + 1) reconstruction with
      ⟨h0, _⟩ | ⟨k, _, h⟩ | ⟨k, t, c1, c2, r, _, ht, _, h⟩ | ⟨k, t, c1, c2, r, m1, hm, ht, _, h⟩
    · exact absurd h0 (Nat.succ_ne_zero m)
    · rw [h]
      simp
    · rw [h]
      simp [Ne.symm ht]
    · obtain rfl : m = m1 := Nat.succ.inj hm
      rw [h]
      simp only [ih r, List.mem_cons, TriEvent.BundleAdjust.injEq, false_or, reduceCtorEq]
      constructor
      · rintro ⟨k1, hk1⟩
        exact ⟨k1, Or.inr hk1⟩
      · rintro ⟨k1, hk1 | hk1⟩
        · exact absurd hk1.2.symm ht
        · exact ⟨k1, hk1⟩

theorem RefineLoop_failure_last {R : Type} (env : ColmapEnv R) :
    ∀ (remaining : Nat) (reconstruction : R),
      (RefineLoop env remaining reconstruction).1 = none →
        ∃ pre k, (RefineLoop env remaining reconstruction).2 =
            pre ++ [TriEvent.BundleAdjust k TerminationType.FAILURE] ∧
          ∀ k1, TriEvent.BundleAdjust k1 TerminationType.FAILURE ∉ pre := by
  intro remaining
  induction remaining with
  | zero => intro reconstruction h; simp [RefineLoop] at h
  | succ m ih =>
    intro reconstruction
    rcases RefineLoop_cases env (m + 1) reconstruction with
      ⟨h0, _⟩ | ⟨k, _, h⟩ | ⟨k, t, c1, c2, r, _, ht, _, h⟩ | ⟨k, t, c1, c2, r, m1, hm, ht, _, h⟩
    · exact absurd h0 (Nat.succ_ne_zero m)
    · rw [h]
      intro _
      exact ⟨[], k, rfl, by simp⟩
    · rw [h]
      intro hnone
      simp at hnone
    · obtain rfl : m = m1 := Nat.succ.inj hm
      rw [h]
      intro hnone
      obtain ⟨pre, k1, hev, hpre⟩ := ih r hnone
      refine ⟨TriEvent.BundleAdjust k t :: TriEvent.CompleteAndMergeTracks c1 ::
        TriEvent.FilterPoints c2 :: pre, k1, by simp [hev], ?_⟩
      intro k2 hmem
      simp only [List.mem_cons, TriEvent.BundleAdjust.injEq, false_or, reduceCtorEq] at hmem
      rcases hmem with hmem | hmem
      · exact absurd hmem.2.symm ht
      · exact hpre k2 hmem

theorem RefineLoop_no_convert {R : Type} (env : ColmapEnv R) :
    ∀ (remaining : Nat) (reconstruction : R),
      TriEvent.ConvertColmapToGlomap ∉ (RefineLoop env remaining reconstruction).2 := by
  intro remaining
  induction remaining with
  | zero => intro reconstruction; simp [RefineLoop]
  | succ m ih =>
    intro reconstruction
    rcases RefineLoop_cases env (m + 1) reconstruction with
      ⟨h0, _⟩ | ⟨k, _, h⟩ | ⟨k, t, c1, c2, r, _, ht, _, h⟩ | ⟨k, t, c1, c2, r, m1, hm, ht, _, h⟩
    · exact absurd h0 (Nat.succ_ne_zero m)
    · rw [h]
      simp
    · rw [h]
      simp
    · obtain rfl : m = m1 := Nat.succ.inj hm
      rw [h]
      simpa using ih r

theorem RefineLoop_stops_below {R : Type} (env : ColmapEnv R) :
    ∀ (remaining : Nat) (reconstruction : R) (pre : List TriEvent) (k : Nat)
      (t : TerminationType) (c1 c2 : Nat) (post : List TriEvent),
      (RefineLoop env remaining reconstruction).2 =
        pre ++ TriEvent.BundleAdjust k t :: TriEvent.CompleteAndMergeTracks c1 ::
          TriEvent.FilterPoints c2 :: post →
      Double.lt (Double.div (Double.ofNat ((c1 + c2) % 2 ^ 64)) (Double.ofNat k))
          env.ba_global_max_refinement_change = true →
      post = [] := by
  intro remaining
  induction remaining with
  | zero =>
    intro reconstruction pre k t c1 c2 post hev
    simp [RefineLoop] at hev
  | succ m ih =>
    intro reconstruction pre k t c1 c2 post
    rcases RefineLoop_cases env (m + 1) reconstruction with
      ⟨h0, _⟩ | ⟨k0, _, h⟩ | ⟨k0, t0, a1, a2, r, _, ht, _, h⟩ |
      ⟨k0, t0, a1, a2, r, m1, hm, ht, hnot, h⟩
    · exact absurd h0 (Nat.succ_ne_zero m)
    · rw [h]
      intro hev
      have hlen := congrArg List.length hev
      simp at hlen
      omega
    · rw [h]
      intro hev _
      have hlen := congrArg List.length hev
      simp at hlen
      apply List.eq_nil_of_length_eq_zero
      omega
    · obtain rfl : m = m1 := Nat.succ.inj hm
      rw [h]
      intro hev hbelow
      rcases pre with _ | ⟨x, _ | ⟨y, _ | ⟨z, pre1⟩⟩⟩
      · simp only [List.nil_append, List.cons.injEq, TriEvent.BundleAdjust.injEq,
          TriEvent.CompleteAndMergeTracks.injEq, TriEvent.FilterPoints.injEq] at hev
        obtain ⟨⟨hk, _⟩, hc1, hc2, _⟩ := hev
        subst hk hc1 hc2
        rw [hbelow] at hnot
        exact absurd hnot (by decide)
      · simp at hev
      · simp at hev
      · simp only [List.cons_append, List.cons.injEq] at hev
        exact ih r pre1 k t c1 c2 post hev.2.2.2 hbelow

theorem RefineLoop_runs_all {R : Type} (env : ColmapEnv R) :
    ∀ (remaining : Nat) (reconstruction : R),
      (RefineLoop env remaining reconstruction).1 ≠ none →
      (∀ (pre : List TriEvent) (k : Nat) (t : TerminationType) (c1 c2 : Nat)
          (post : List TriEvent),
        (RefineLoop env remaining reconstruction).2 =
          pre ++ TriEvent.BundleAdjust k t :: TriEvent.CompleteAndMergeTracks c1 ::
            TriEvent.FilterPoints c2 :: post →
        Double.lt (Double.div (Double.ofNat ((c1 + c2) % 2 ^ 64)) (Double.ofNat k))
            env.ba_global_max_refinement_change = false) →
      (RefineLoop env remaining reconstruction).2.countP TriEvent.isBundleAdjust = remaining := by
  intro remaining
  induction remaining with
  | zero => intro reconstruction _ _; simp [RefineLoop]
  | succ m ih =>
    intro reconstruction
    rcases RefineLoop_cases env (m + 1) reconstruction with
      ⟨h0, _⟩ | ⟨k0, _, h⟩ | ⟨k0, t0, a1, a2, r, _, ht, hbelow, h⟩ |
      ⟨k0, t0, a1, a2, r, m1, hm, ht, hnot, h⟩
    · exact absurd h0 (Nat.succ_ne_zero m)
    · rw [h]
      intro hne
      exact absurd rfl hne
    · rw [h]
      intro _ hall
      have := hall [] k0 t0 a1 a2 [] rfl
      rw [hbelow] at this
      exact absurd this (by decide)
    · obtain rfl : m = m1 := Nat.succ.inj hm
      rw [h]
      intro hne hall
      have hrest := ih r hne (fun pre k t c1 c2 post hev =>
        hall (TriEvent.BundleAdjust k0 t0 :: TriEvent.CompleteAndMergeTracks a1 ::
          TriEvent.FilterPoints a2 :: pre) k t c1 c2 post (by simp [hev]))
      simp only [List.countP_cons, TriEvent.isBundleAdjust]
      simp only [Bool.false_eq_true, if_false, if_true, Nat.add_zero]
      omega

/-- The events of a call, in terms of the run of the loop inside it. -/
theorem RetriangulateTracks_events {R : Type} (env : ColmapEnv R) (cameras : Cameras)
    (images : Images) (tracks : Tracks) :
    ∃ (c0 : Nat) (r0 : R),
      ((RefineLoop env env.ba_global_max_refinements.toNat r0).1 = none ∧
        (RetriangulateTracks env cameras images tracks).ret = false ∧
        (RetriangulateTracks env cameras images tracks).events =
          TriEvent.CompleteAndMergeTracks c0 ::
            (RefineLoop env env.ba_global_max_refinements.toNat r0).2 ∧
        (RetriangulateTracks env cameras images tracks).converted = none ∧
        (RetriangulateTracks env cameras images tracks).cameras = cameras ∧
        (RetriangulateTracks env cameras images tracks).images =
          (UnregisterNotConnected env.ExistsImage images).1 ∧
        (RetriangulateTracks env cameras images tracks).tracks = tracks) ∨
      ((RefineLoop env env.ba_global_max_refinements.toNat r0).1 ≠ none ∧
        (RetriangulateTracks env cameras images tracks).ret = true ∧
        (RetriangulateTracks env cameras images tracks).events =
          TriEvent.CompleteAndMergeTracks c0 ::
            ((RefineLoop env env.ba_global_max_refinements.toNat r0).2 ++
              [TriEvent.ConvertColmapToGlomap])) := by
  refine ⟨(TriangulateAll env cameras (UnregisterNotConnected env.ExistsImage images).1).1,
    (TriangulateAll env cameras (UnregisterNotConnected env.ExistsImage images).1).2, ?_⟩
  unfold RetriangulateTracks
  simp only
  split
  next hnone => exact Or.inl ⟨hnone, rfl, rfl, rfl, rfl, rfl, rfl⟩
  next r hsome => exact Or.inr ⟨by rw [hsome]; simp, rfl, rfl⟩

/-- C9: `RetriangulateTracks` performs at most `ba_global_max_refinements` bundle-adjustment
solves, and none when that bound is not positive; it returns `false` exactly when one of the
solves ends with `ceres::FAILURE`, and then that solve is the last call made: no further
solve, completion, filtering or conversion back follows, and no earlier solve failed; a call
that returns `true` ends with the one conversion back; after an iteration whose ratio of changed
observations, the `double` quotient of line 113, is below `ba_global_max_refinement_change`
in the `double` comparison of line 114, the only further call is the conversion back; and a
call that returns `true` without such an iteration performs all `ba_global_max_refinements`
solves.  That comparison is never true with zero observations, and never true of a quotient
equal to the threshold. -/
theorem RetriangulateTracks_refinement_loop {R : Type} (env : ColmapEnv R) (cameras : Cameras)
    (images : Images) (tracks : Tracks) :
    (RetriangulateTracks env cameras images tracks).events.countP TriEvent.isBundleAdjust ≤
      env.ba_global_max_refinements.toNat ∧
    (env.ba_global_max_refinements ≤ 0 →
      (RetriangulateTracks env cameras images tracks).events.countP TriEvent.isBundleAdjust = 0 ∧
      (RetriangulateTracks env cameras images tracks).ret = true) ∧
    ((RetriangulateTracks env cameras images tracks).ret = false ↔
      ∃ k, TriEvent.BundleAdjust k TerminationType.FAILURE ∈
        (RetriangulateTracks env cameras images tracks).events) ∧
    ((RetriangulateTracks env cameras images tracks).ret = false →
      (∃ pre k, (RetriangulateTracks env cameras images tracks).events =
          pre ++ [TriEvent.BundleAdjust k TerminationType.FAILURE] ∧
        ∀ k1, TriEvent.BundleAdjust k1 TerminationType.FAILURE ∉ pre) ∧
      TriEvent.ConvertColmapToGlomap ∉ (RetriangulateTracks env cameras images tracks).events ∧
      (RetriangulateTracks env cameras images tracks).converted = none) ∧
    ((RetriangulateTracks env cameras images tracks).ret = true →
      ∃ pre, (RetriangulateTracks env cameras images tracks).events =
          pre ++ [TriEvent.ConvertColmapToGlomap] ∧
        TriEvent.ConvertColmapToGlomap ∉ pre) ∧
    (∀ (pre : List TriEvent) (k : Nat) (t : TerminationType) (c1 c2 : Nat)
        (post : List TriEvent),
      (RetriangulateTracks env cameras images tracks).events =
        pre ++ TriEvent.BundleAdjust k t :: TriEvent.CompleteAndMergeTracks c1 ::
          TriEvent.FilterPoints c2 :: post →
      Double.lt (Double.div (Double.ofNat ((c1 + c2) % 2 ^ 64)) (Double.ofNat k))
          env.ba_global_max_refinement_change = true →
      post = [TriEvent.ConvertColmapToGlomap]) ∧
    ((RetriangulateTracks env cameras images tracks).ret = true →
      (∀ (pre : List TriEvent) (k : Nat) (t : TerminationType) (c1 c2 : Nat)
          (post : List TriEvent),
        (RetriangulateTracks env cameras images tracks).events =
          pre ++ TriEvent.BundleAdjust k t :: TriEvent.CompleteAndMergeTracks c1 ::
            TriEvent.FilterPoints c2 :: post →
        Double.lt (Double.div (Double.ofNat ((c1 + c2) % 2 ^ 64)) (Double.ofNat k))
            env.ba_global_max_refinement_change = false) →
      (RetriangulateTracks env cameras images tracks).events.countP TriEvent.isBundleAdjust =
        env.ba_global_max_refinements.toNat) ∧
    (∀ (num_changed_observations : Nat) (threshold : Double),
      Double.lt (Double.div (Double.ofNat num_changed_observations) (Double.ofNat 0))
        threshold = false) ∧
    (∀ num_changed_observations num_observations : Nat,
      Double.lt
        (Double.div (Double.ofNat num_changed_observations) (Double.ofNat num_observations))
        (Double.div (Double.ofNat num_changed_observations) (Double.ofNat num_observations))
        = false) := by
  obtain ⟨c0, r0, hcase⟩ := RetriangulateTracks_events env cameras images tracks
  have hcount := RefineLoop_count_le env env.ba_global_max_refinements.toNat r0
  have hiff := RefineLoop_none_iff env env.ba_global_max_refinements.toNat r0
  have hnoconv := RefineLoop_no_convert env env.ba_global_max_refinements.toNat r0
  have hstop := RefineLoop_stops_below env env.ba_global_max_refinements.toNat r0
  rcases hcase with ⟨hnone, hret, hev, hconv, -⟩ | ⟨hsome, hret, hev⟩
  · obtain ⟨pre0, k0, hlast, hpre0⟩ :=
      RefineLoop_failure_last env env.ba_global_max_refinements.toNat r0 hnone
    have hpos : ¬ env.ba_global_max_refinements ≤ 0 := by
      intro hle
      have hzero : env.ba_global_max_refinements.toNat = 0 := Int.toNat_eq_zero.2 hle
      rw [hzero] at hnone
      simp [RefineLoop] at hnone
    have hdecomp : ∀ (pre : List TriEvent) (k : Nat) (t : TerminationType) (c1 c2 : Nat)
        (post : List TriEvent),
        (RetriangulateTracks env cameras images tracks).events =
          pre ++ TriEvent.BundleAdjust k t :: TriEvent.CompleteAndMergeTracks c1 ::
            TriEvent.FilterPoints c2 :: post →
        Double.lt (Double.div (Double.ofNat ((c1 + c2) % 2 ^ 64)) (Double.ofNat k))
            env.ba_global_max_refinement_change = true →
        False := by
      intro pre k t c1 c2 post hsplit hbelow
      rw [hev] at hsplit
      rcases pre with _ | ⟨x, pre1⟩
      · simp at hsplit
      · simp only [List.cons_append, List.cons.injEq] at hsplit
        have hpost := hstop pre1 k t c1 c2 post hsplit.2 hbelow
        subst hpost
        have hrev := congrArg List.reverse (hsplit.2.symm.trans hlast)
        simp at hrev
    rw [hret, hev]
    refine ⟨?_, fun hle => absurd hle hpos, ?_, fun _ => ⟨?_, ?_, hconv⟩,
      fun h => absurd h (by decide), ?_, fun h => absurd h (by decide),
      Double.lt_div_zero, fun _ _ => Double.lt_irrefl _⟩
    · simpa [List.countP_cons, TriEvent.isBundleAdjust] using hcount
    · simp only [true_iff]
      obtain ⟨k, hk⟩ := hiff.1 hnone
      exact ⟨k, List.mem_cons_of_mem _ hk⟩
    · refine ⟨TriEvent.CompleteAndMergeTracks c0 :: pre0, k0, by simp [hlast], ?_⟩
      intro k1 hmem
      simp only [List.mem_cons, reduceCtorEq, false_or] at hmem
      exact hpre0 k1 hmem
    · simpa using hnoconv
    · intro pre k t c1 c2 post hsplit hbelow
      rw [← hev] at hsplit
      exact (hdecomp pre k t c1 c2 post hsplit hbelow).elim
  · have hnofail : ¬ ∃ k, TriEvent.BundleAdjust k TerminationType.FAILURE ∈
        (RefineLoop env env.ba_global_max_refinements.toNat r0).2 :=
      fun h => hsome (hiff.2 h)
    rw [hret, hev]
    refine ⟨?_, fun hle => ⟨?_, rfl⟩, ?_, fun h => absurd h (by decide), fun _ => ?_, ?_,
      fun _ hall => ?_, Double.lt_div_zero, fun _ _ => Double.lt_irrefl _⟩
    · simpa [List.countP_cons, List.countP_append, TriEvent.isBundleAdjust] using hcount
    · have hzero : env.ba_global_max_refinements.toNat = 0 := Int.toNat_eq_zero.2 hle
      rw [hzero]
      simp [RefineLoop, List.countP_cons, TriEvent.isBundleAdjust]
    · constructor
      · intro h
        exact absurd h (by decide)
      · rintro ⟨k, hk⟩
        simp only [List.mem_cons, List.mem_append, reduceCtorEq, false_or, or_false,
          List.mem_singleton] at hk
        rcases hk with hk | hk
        · exact absurd ⟨k, hk⟩ hnofail
        · exact absurd hk (List.not_mem_nil _)
    · refine ⟨TriEvent.CompleteAndMergeTracks c0 ::
        (RefineLoop env env.ba_global_max_refinements.toNat r0).2, by simp, ?_⟩
      simpa using hnoconv
    · intro pre k t c1 c2 post hsplit hbelow
      rcases pre with _ | ⟨x, pre1⟩
      · simp at hsplit
      · simp only [List.cons_append, List.cons.injEq] at hsplit
        rcases List.eq_nil_or_concat post with hpost | ⟨post1, b, hpost⟩
        · subst hpost
          have hrev := congrArg List.reverse hsplit.2
          simp at hrev
        · subst hpost
          have hsplit2 : (RefineLoop env env.ba_global_max_refinements.toNat r0).2 ++
              [TriEvent.ConvertColmapToGlomap] =
              (pre1 ++ TriEvent.BundleAdjust k t :: TriEvent.CompleteAndMergeTracks c1 ::
                TriEvent.FilterPoints c2 :: post1) ++ [b] := by
            rw [hsplit.2]
            simp
          have hinj := List.append_inj' hsplit2 rfl
          have hpost1 := hstop pre1 k t c1 c2 post1 hinj.1 hbelow
          subst hpost1
          have hb : TriEvent.ConvertColmapToGlomap = b := by simpa using hinj.2
          rw [← hb]
          rfl
    · have hall2 : ∀ (pre : List TriEvent) (k : Nat) (t : TerminationType) (c1 c2 : Nat)
          (post : List TriEvent),
          (RefineLoop env env.ba_global_max_refinements.toNat r0).2 =
            pre ++ TriEvent.BundleAdjust k t :: TriEvent.CompleteAndMergeTracks c1 ::
              TriEvent.FilterPoints c2 :: post →
          Double.lt (Double.div (Double.ofNat ((c1 + c2) % 2 ^ 64)) (Double.ofNat k))
              env.ba_global_max_refinement_change = false := by
        intro pre k t c1 c2 post hsplit
        exact hall (TriEvent.CompleteAndMergeTracks c0 :: pre) k t c1 c2
          (post ++ [TriEvent.ConvertColmapToGlomap]) (by rw [hsplit]; simp)
      have hrun := RefineLoop_runs_all env env.ba_global_max_refinements.toNat r0 hsome hall2
      simpa [List.countP_cons, List.countP_append, TriEvent.isBundleAdjust] using hrun

/-! ## RetriangulateTracks: pose priors -/

theorem StashPosePriors_foldl (image_id : image_t) :
    ∀ (l : List (image_t × Image)) (acc : UMap PosePrior), (l.map Prod.fst).Nodup →
      (l.foldl
        (fun (pose_priors : UMap PosePrior) (entry : image_t × Image) =>
          match entry.2.pose_prior with
          | some prior => pose_priors.set entry.1 prior
          | none => pose_priors) acc).find image_id =
        match (List.lookup image_id l).bind (fun image => image.pose_prior) with
        | some prior => some prior
        | none => acc.find image_id
  | [], acc, _ => rfl
  | (k, image) :: rest, acc, hnd => by
    have hnd2 : k ∉ rest.map Prod.fst ∧ (rest.map Prod.fst).Nodup := by simpa using hnd
    rw [List.foldl_cons, StashPosePriors_foldl image_id rest _ hnd2.2, lookup_cons_eq]
    by_cases hk : image_id = k
    · subst hk
      rw [lookup_eq_none_of_not_mem image_id rest hnd2.1]
      cases hp : image.pose_prior <;> simp [hp, UMap.find_set]
    · rw [if_neg hk]
      cases hp : image.pose_prior <;> simp [hp, UMap.find_set, hk]

theorem StashPosePriors_find (images : Images) (image_id : image_t) :
    (StashPosePriors images).find image_id =
      (images.find image_id).bind (fun image => image.pose_prior) := by
  unfold StashPosePriors
  rw [StashPosePriors_foldl image_id images.entries UMap.empty images.nodup]
  show (match (images.find image_id).bind (fun image => image.pose_prior) with
    | some prior => some prior
    | none => none) = _
  cases (images.find image_id).bind (fun image => image.pose_prior) <;> rfl

theorem ReRegister_pose_prior {R : Type} (env : ColmapEnv R) (image_id : image_t) :
    ∀ (ids : List image_t) (images : Images) (reconstruction : R),
      ((ReRegister env ids images reconstruction).1.find image_id).bind
          (fun image => image.pose_prior) =
        (images.find image_id).bind (fun image => image.pose_prior)
  | [], _, _ => rfl
  | k :: rest, images, reconstruction => by
    unfold ReRegister
    rw [List.foldl_cons]
    have ih := ReRegister_pose_prior env image_id rest
      (images.set k { images.getD k Image.default with is_registered := true })
      (env.AddImage ((images.set k
        { images.getD k Image.default with is_registered := true }).getD k Image.default)
        reconstruction)
    unfold ReRegister at ih
    rw [ih, UMap.find_set]
    by_cases hk : image_id = k
    · subst hk
      unfold UMap.getD
      cases hfind : images.find image_id <;> simp [Image.default]
    · rw [if_neg hk]

theorem UnregisterNotConnected_find (ExistsImage : image_t → Bool) (images : Images)
    (image_id : image_t) :
    (UnregisterNotConnected ExistsImage images).1.find image_id =
      (images.find image_id).map (fun image =>
        if (!ExistsImage image_id && image.is_registered) = true then
          { image with is_registered := false }
        else image) := by
  show List.lookup image_id (UnregisterPass ExistsImage images.entries).1 = _
  rw [UnregisterPass_fst]
  exact lookup_map_values (fun k (image : Image) =>
    if (!ExistsImage k && image.is_registered) = true then
      { image with is_registered := false }
    else image) image_id images.entries

theorem UnregisterNotConnected_pose_prior (ExistsImage : image_t → Bool) (images : Images)
    (image_id : image_t) :
    ((UnregisterNotConnected ExistsImage images).1.find image_id).bind
        (fun image => image.pose_prior) =
      (images.find image_id).bind (fun image => image.pose_prior) := by
  rw [UnregisterNotConnected_find]
  cases images.find image_id with
  | none => rfl
  | some image =>
    simp only [Option.map_some', Option.some_bind]
    split_ifs <;> rfl

theorem RestorePosePriors_find (pose_priors : UMap PosePrior) (images : Images)
    (image_id : image_t) :
    (RestorePosePriors pose_priors images).find image_id =
      (images.find image_id).map (fun image =>
        if pose_priors.count image_id ≠ 0 then
          { image with pose_prior := pose_priors.find image_id }
        else image) :=
  UMap.find_mapValues _ images image_id

theorem RestorePosePriors_keys (pose_priors : UMap PosePrior) (images : Images) :
    (RestorePosePriors pose_priors images).keys = images.keys := by
  show (images.entries.map _).map Prod.fst = images.entries.map Prod.fst
  rw [List.map_map]
  rfl

/-- The pose priors stashed at line 129 are those the images carried at entry. -/
theorem stashed_pose_prior {R : Type} (env : ColmapEnv R) (images : Images) (reconstruction : R)
    (image_id : image_t) :
    (StashPosePriors (ReRegister env (UnregisterNotConnected env.ExistsImage images).2
        (UnregisterNotConnected env.ExistsImage images).1 reconstruction).1).find image_id =
      (images.find image_id).bind (fun entry => entry.pose_prior) := by
  rw [StashPosePriors_find, ReRegister_pose_prior, UnregisterNotConnected_pose_prior]

/-- C7: when `RetriangulateTracks` returns `true`, the images map on return has the ids that
`ConvertColmapToGlomap` left in it, and for each of them: if the image carried a pose prior at
entry, the image on return is the converted one with `pose_prior` set back to the entry value;
if it carried none (or was absent at entry), the image on return is the converted one,
`pose_prior` included. -/
theorem RetriangulateTracks_pose_priors {R : Type} (env : ColmapEnv R) (cameras : Cameras)
    (images : Images) (tracks : Tracks)
    (hret : (RetriangulateTracks env cameras images tracks).ret = true) :
    ∃ converted : Images,
      (RetriangulateTracks env cameras images tracks).converted = some converted ∧
      (RetriangulateTracks env cameras images tracks).images.keys = converted.keys ∧
      ∀ (image_id : image_t) (image : Image), converted.find image_id = some image →
        (∀ prior : PosePrior,
          (images.find image_id).bind (fun entry => entry.pose_prior) = some prior →
            (RetriangulateTracks env cameras images tracks).images.find image_id =
              some { image with pose_prior := some prior }) ∧
        ((images.find image_id).bind (fun entry => entry.pose_prior) = none →
          (RetriangulateTracks env cameras images tracks).images.find image_id =
            some image) := by
  unfold RetriangulateTracks at hret ⊢
  simp only at hret ⊢
  cases hloop : (RefineLoop env env.ba_global_max_refinements.toNat
      (TriangulateAll env cameras (UnregisterNotConnected env.ExistsImage images).1).2).1 with
  | none =>
    rw [hloop] at hret
    simp at hret
  | some reconstruction =>
    simp only [hloop]
    refine ⟨_, rfl, RestorePosePriors_keys _ _, ?_⟩
    intro image_id image hconv
    rw [RestorePosePriors_find, hconv, Option.map_some']
    unfold UMap.count
    rw [stashed_pose_prior]
    constructor
    · intro prior hprior
      rw [hprior]
      simp
    · intro hnone
      rw [hnone]
      simp

/-- C7, at a concrete run that returns `true`. -/
theorem RetriangulateTracks_pose_priors_witness :
    ∃ converted : Images,
      (RetriangulateTracks (sampleColmapEnv TerminationType.NO_CONVERGENCE) UMap.empty
        sampleImages UMap.empty).converted = some converted ∧
      (RetriangulateTracks (sampleColmapEnv TerminationType.NO_CONVERGENCE) UMap.empty
        sampleImages UMap.empty).images.keys = converted.keys ∧
      ∀ (image_id : image_t) (image : Image), converted.find image_id = some image →
        (∀ prior : PosePrior,
          (sampleImages.find image_id).bind (fun entry => entry.pose_prior) = some prior →
            (RetriangulateTracks (sampleColmapEnv TerminationType.NO_CONVERGENCE) UMap.empty
              sampleImages UMap.empty).images.find image_id =
              some { image with pose_prior := some prior }) ∧
        ((sampleImages.find image_id).bind (fun entry => entry.pose_prior) = none →
          (RetriangulateTracks (sampleColmapEnv TerminationType.NO_CONVERGENCE) UMap.empty
            sampleImages UMap.empty).images.find image_id = some image) :=
  RetriangulateTracks_pose_priors (sampleColmapEnv TerminationType.NO_CONVERGENCE) UMap.empty
    sampleImages UMap.empty
    (by decide)

/-- C8, at a concrete map: image 2 is registered and not in the cache, so it is the one id
collected, and it is collected once. -/
theorem RetriangulateTracks_unregister_pass_witness :
    (2 ∈ (UnregisterNotConnected (fun image_id => decide (image_id = 1)) sampleImages).2 ↔
      ∃ image : Image, sampleImages.find 2 = some image ∧ image.is_registered = true ∧
        decide (2 = 1) = false) ∧
    (UnregisterNotConnected (fun image_id => decide (image_id = 1)) sampleImages).2 = [2] :=
  ⟨(RetriangulateTracks_unregister_pass (fun image_id => decide (image_id = 1))
      sampleImages).2.1 2, by decide⟩

/-- C9, at concrete runs: with five refinements allowed, a first iteration changing 5 of 100
observations and a second changing 2 of 100 against a threshold of `0.03`, two solves ending in
`NO_CONVERGENCE` are made and the call returns `true`; with 1 of 2000 observations changing in
every iteration against a threshold of `0.0005`, the quotient equals the threshold and all
five solves are made. -/
theorem RetriangulateTracks_refinement_loop_witness :
    (RetriangulateTracks (sampleColmapEnv TerminationType.NO_CONVERGENCE) UMap.empty
        sampleImages UMap.empty).events =
      [TriEvent.CompleteAndMergeTracks 2,
        TriEvent.BundleAdjust 100 TerminationType.NO_CONVERGENCE,
        TriEvent.CompleteAndMergeTracks 2, TriEvent.FilterPoints 3,
        TriEvent.BundleAdjust 100 TerminationType.NO_CONVERGENCE,
        TriEvent.CompleteAndMergeTracks 2, TriEvent.FilterPoints 0,
        TriEvent.ConvertColmapToGlomap] ∧
    ((RetriangulateTracks (sampleColmapEnv TerminationType.NO_CONVERGENCE) UMap.empty
        sampleImages UMap.empty).ret = false ↔
      ∃ k, TriEvent.BundleAdjust k TerminationType.FAILURE ∈
        (RetriangulateTracks (sampleColmapEnv TerminationType.NO_CONVERGENCE) UMap.empty
          sampleImages UMap.empty).events) ∧
    (RetriangulateTracks boundaryColmapEnv UMap.empty sampleImages
      UMap.empty).events.countP TriEvent.isBundleAdjust = 5 :=
  ⟨by decide,
    (RetriangulateTracks_refinement_loop (sampleColmapEnv TerminationType.NO_CONVERGENCE)
      UMap.empty sampleImages UMap.empty).2.2.1,
    by decide⟩

/-! ## RetriangulateTracks: state left behind by a failed call -/

/-- C10, evaluated at a failing input: images 1 and 2 are registered at entry, image 2 is not
in the database cache, and the first bundle-adjustment solve ends with `ceres::FAILURE`.  The
call returns `false` after a single solve, and image 2 is left with `is_registered == false`:
the images map on return differs from the one at entry.  In general a call that returns `false`
leaves the cameras and tracks maps alone and leaves the images map as the un-registration pass
of lines 27-36 made it. -/
theorem RetriangulateTracks_failure_not_atomic :
    (RetriangulateTracks (sampleColmapEnv TerminationType.FAILURE) UMap.empty sampleImages
      UMap.empty).ret = false ∧
    (RetriangulateTracks (sampleColmapEnv TerminationType.FAILURE) UMap.empty sampleImages
      UMap.empty).events =
      [TriEvent.CompleteAndMergeTracks 2,
        TriEvent.BundleAdjust 100 TerminationType.FAILURE] ∧
    (sampleImages.find 2).map (fun image => image.is_registered) = some true ∧
    ((RetriangulateTracks (sampleColmapEnv TerminationType.FAILURE) UMap.empty sampleImages
      UMap.empty).images.find 2).map (fun image => image.is_registered) = some false ∧
    (RetriangulateTracks (sampleColmapEnv TerminationType.FAILURE) UMap.empty sampleImages
      UMap.empty).images.entries ≠ sampleImages.entries ∧
    (∀ (R : Type) (env : ColmapEnv R) (cameras : Cameras) (images : Images) (tracks : Tracks),
      (RetriangulateTracks env cameras images tracks).ret = false →
        (RetriangulateTracks env cameras images tracks).cameras = cameras ∧
        (RetriangulateTracks env cameras images tracks).tracks = tracks ∧
        (RetriangulateTracks env cameras images tracks).images =
          (UnregisterNotConnected env.ExistsImage images).1) := by
  refine ⟨by decide, by decide, by decide, by decide, ?_, ?_⟩
  · intro h
    have h2 := congrArg (fun entries => (List.lookup 2 entries).map (fun image =>
      image.is_registered)) h
    exact absurd h2 (by decide)
  · intro R env cameras images tracks hret
    obtain ⟨c0, r0, hcase⟩ := RetriangulateTracks_events env cameras images tracks
    rcases hcase with ⟨_, _, _, _, hcameras, himages, htracks⟩ | ⟨_, htrue, _⟩
    · exact ⟨hcameras, htracks, himages⟩
    · rw [htrue] at hret
      exact absurd hret (by decide)

/-! ## GlobalPositioner: degenerate input -/

theorem UsableEdges_eq_nil (view_graph : ViewGraph) (images : Images)
    (hedges : ∀ pair ∈ view_graph.image_pairs,
      ¬ (IsRegistered images pair.image_id1 = true ∧ IsRegistered images pair.image_id2 = true)) :
    UsableEdges view_graph images = [] := by
  unfold UsableEdges
  rw [List.filter_eq_nil_iff]
  intro pair hmem hcond
  simp only [Bool.and_eq_true] at hcond
  exact hedges pair hmem ⟨hcond.1.2, hcond.2⟩

/-- C1: for every view graph without an edge between two registered images and every
configuration whose `constraint_type` is `ONLY_CAMERAS`, `Solve` returns `false` and leaves
the images map, hence the position of every image in it, as it was before the call; the
tracks map is left as well. -/
theorem GlobalPositioner_Solve_degenerate (env : PositionerEnv) (self : GlobalPositioner)
    (view_graph : ViewGraph) (cameras : Cameras) (images : Images) (tracks : Tracks)
    (hpolicy : self.options_.constraint_type = ConstraintType.ONLY_CAMERAS)
    (hedges : ∀ pair ∈ view_graph.image_pairs,
      ¬ (IsRegistered images pair.image_id1 = true ∧
        IsRegistered images pair.image_id2 = true)) :
    (self.Solve env view_graph cameras images tracks).ret = false ∧
    (self.Solve env view_graph cameras images tracks).images = images ∧
    (self.Solve env view_graph cameras images tracks).tracks = tracks ∧
    ∀ image_id : image_t,
      ((self.Solve env view_graph cameras images tracks).images.find image_id).map
          (fun image => image.position) =
        (images.find image_id).map (fun image => image.position) := by
  have hsolve : self.Solve env view_graph cameras images tracks =
      { ret := false, images := images, tracks := tracks } := by
    unfold GlobalPositioner.Solve SetupProblem CameraToCameraConstraints
      PointToCameraConstraints
    simp [hpolicy, UsableEdges_eq_nil view_graph images hedges]
  rw [hsolve]
  exact ⟨rfl, rfl, rfl, fun _ => rfl⟩

/-- C1, at a concrete input: the only edge ends at an image that is not in the map. -/
theorem GlobalPositioner_Solve_degenerate_witness :
    (sampleCamerasOnlyPositioner.Solve samplePositionerEnv sampleViewGraph UMap.empty
      sampleImages UMap.empty).ret = false ∧
    (sampleCamerasOnlyPositioner.Solve samplePositionerEnv sampleViewGraph UMap.empty
      sampleImages UMap.empty).images = sampleImages :=
  ⟨(GlobalPositioner_Solve_degenerate samplePositionerEnv sampleCamerasOnlyPositioner
      sampleViewGraph UMap.empty sampleImages UMap.empty rfl (by decide)).1,
    (GlobalPositioner_Solve_degenerate samplePositionerEnv sampleCamerasOnlyPositioner
      sampleViewGraph UMap.empty sampleImages UMap.empty rfl (by decide)).2.1⟩

/-! ## GlobalPositioner: the stored configuration -/

end glomap
